import Mathlib

/- Verification development for the Superalink analytics service.

   The TypeScript sources are shallowly embedded in Lean:
   - JS numbers are modelled as rationals (ℚ); `toFixed(2)` is modelled as
     rounding to two decimals with ties going up (the ECMA-262 rule picks the
     larger candidate on a tie), `Math.round` as `round` (⌊x + 1/2⌋).
   - Calendar dates are modelled as integer day numbers (days since the Unix
     epoch) using the standard civil-calendar conversion; `Date.UTC` month/day
     overflow rolls over exactly as in JS.
   - Fallible code returns `Except String`; network fetches are passed in as
     an `Except String` outcome parameter (explicit effect passing).
   - JS `Map`s and plain objects keep insertion order; they are modelled as
     association lists with update-in-place / append-at-end semantics.
   - `Array.prototype.sort` (stable in modern engines) is modelled as a stable
     insertion sort. -/

/-! ### Generic string helpers (JS semantics) -/

/-- Substring test on character lists: `needle` occurs somewhere in the list. -/
def listContainsSub (needle : List Char) : List Char → Bool
  | [] => needle.isEmpty
  | c :: rest => needle.isPrefixOf (c :: rest) || listContainsSub needle rest

/-- JS `String.prototype.includes` (used to model `REGEXP_CONTAINS` with a
literal pattern): does `hay` contain `needle` as a substring? -/
def containsSubstring (hay needle : String) : Bool :=
  listContainsSub needle.data hay.data

/-- JS `String.prototype.toLowerCase` (character-wise, kernel-computable). -/
def toLowerStr (s : String) : String := String.mk (s.data.map Char.toLower)

/-- JS `String.prototype.toUpperCase` (character-wise, kernel-computable). -/
def toUpperStr (s : String) : String := String.mk (s.data.map Char.toUpper)

/-- Whitespace recognised by JS trimming (ASCII subset). -/
def isJsWhitespace (c : Char) : Bool :=
  c = ' ' || c = '\t' || c = '\n' || c = '\r' || c = '\x0b' || c = '\x0c'

/-- JS `String.prototype.trim`. -/
def jsTrim (s : String) : String :=
  String.mk (((s.data.dropWhile isJsWhitespace).reverse.dropWhile isJsWhitespace).reverse)

/-- JS `String.prototype.endsWith` (kernel-computable). -/
def endsWithStr (s suffix : String) : Bool :=
  suffix.data.isSuffixOf s.data

/-- Pad a string on the left with zeros up to `len` characters. -/
def padLeft (s : String) (len : Nat) : String :=
  String.mk (List.replicate (len - s.length) '0') ++ s

/-- Numeric value of a digit character. -/
def digitsToNat (cs : List Char) : Nat :=
  cs.foldl (fun a c => a * 10 + (c.toNat - 48)) 0

/-! ### JS number parsing (`parseFloat` and `Number(...)`) over ℚ -/

/-- Parse a decimal mantissa (`123`, `123.45`, `.45`, `123.`) from the front of
a character list; returns the value and the unconsumed rest. -/
def parseMantissa (cs : List Char) : Option (ℚ × List Char) :=
  let ip := cs.takeWhile Char.isDigit
  let rest := cs.dropWhile Char.isDigit
  match rest with
  | c :: rest2 =>
    if c = '.' then
      let fp := rest2.takeWhile Char.isDigit
      let rest3 := rest2.dropWhile Char.isDigit
      if ip = [] ∧ fp = [] then none
      else some ((digitsToNat ip : ℚ) + (digitsToNat fp : ℚ) / ((10 : ℚ) ^ fp.length), rest3)
    else if ip = [] then none else some ((digitsToNat ip : ℚ), rest)
  | [] => if ip = [] then none else some ((digitsToNat ip : ℚ), [])

/-- Parse an exponent suffix (`e5`, `E-3`, ...) from the front of a character
list. -/
def parseExponent (cs : List Char) : Option (Int × List Char) :=
  match cs with
  | c :: rest =>
    if c = 'e' ∨ c = 'E' then
      match rest with
      | s :: rest2 =>
        if s = '+' ∨ s = '-' then
          let ds := rest2.takeWhile Char.isDigit
          let rest3 := rest2.dropWhile Char.isDigit
          if ds = [] then none
          else some (if s = '-' then -(digitsToNat ds : Int) else (digitsToNat ds : Int), rest3)
        else
          let ds := rest.takeWhile Char.isDigit
          let rest2b := rest.dropWhile Char.isDigit
          if ds = [] then none else some ((digitsToNat ds : Int), rest2b)
      | [] => none
    else none
  | [] => none

/-- Unsigned core of JS `parseFloat`: longest valid numeric prefix, trailing
garbage ignored. `none` models NaN. -/
def parseFloatCore (cs : List Char) : Option ℚ :=
  match parseMantissa cs with
  | none => none
  | some (q, rest) =>
    match parseExponent rest with
    | some (k, _) => some (q * (10 : ℚ) ^ k)
    | none => some q

/-- JS `Number.parseFloat` on ℚ: leading whitespace skipped, sign, longest
valid prefix; `none` models NaN (including non-numeric input). -/
def parseFloatPrefix (s : String) : Option ℚ :=
  match (jsTrim s).data with
  | '+' :: rest => parseFloatCore rest
  | '-' :: rest => (parseFloatCore rest).map Neg.neg
  | cs => parseFloatCore cs

/-- Unsigned core of JS `Number(...)`: the whole remaining string must be a
valid numeral. -/
def parseStrictNumber (cs : List Char) : Option ℚ :=
  match parseMantissa cs with
  | none => none
  | some (q, rest) =>
    match rest with
    | [] => some q
    | _ =>
      match parseExponent rest with
      | some (k, []) => some (q * (10 : ℚ) ^ k)
      | _ => none

/-- JS `Number(string)` on ℚ: trims, empty string is 0, whole string must be
numeric; `none` models NaN. -/
def jsNumberOfString (s : String) : Option ℚ :=
  match (jsTrim s).data with
  | [] => some 0
  | '+' :: rest => parseStrictNumber rest
  | '-' :: rest => (parseStrictNumber rest).map Neg.neg
  | cs => parseStrictNumber cs

/-- JS `Number.prototype.toFixed(2)` read back with `Number(...)`: round to two
decimal places, ties to the larger candidate (ECMA-262). -/
def jsToFixed2 (q : ℚ) : ℚ := ((round (q * 100) : ℤ) : ℚ) / 100

/-! ### Calendar-date arithmetic (civil calendar ↔ day number) -/

/-- Gregorian leap-year rule. -/
def isLeapYear (y : Int) : Bool :=
  (y % 4 == 0 && y % 100 != 0) || y % 400 == 0

/-- Number of days in a month of a given year. -/
def daysInMonth (y m : Int) : Int :=
  if m == 2 then (if isLeapYear y then 29 else 28)
  else if m == 4 || m == 6 || m == 9 || m == 11 then 30
  else 31

/-- Civil date to day number (days since 1970-01-01), standard era-based
conversion. -/
def toDayNumber (y m d : Int) : Int :=
  let yy := if m ≤ 2 then y - 1 else y
  let era := (if yy ≥ 0 then yy else yy - 399) / 400
  let yoe := yy - era * 400
  let mp := if m > 2 then m - 3 else m + 9
  let doy := (153 * mp + 2) / 5 + d - 1
  let doe := yoe * 365 + yoe / 4 - yoe / 100 + doy
  era * 146097 + doe - 719468

/-- Day number back to a civil date `(year, month, day)`. -/
def fromDayNumber (z0 : Int) : Int × Int × Int :=
  let z := z0 + 719468
  let era := (if z ≥ 0 then z else z - 146096) / 146097
  let doe := z - era * 146097
  let yoe := (doe - doe / 1460 + doe / 36524 - doe / 146096) / 365
  let y := yoe + era * 400
  let doy := doe - (365 * yoe + yoe / 4 - yoe / 100)
  let mp := (5 * doy + 2) / 153
  let d := doy - (153 * mp + 2) / 5 + 1
  let m := if mp < 10 then mp + 3 else mp - 9
  (if m ≤ 2 then y + 1 else y, m, d)

/-- `Date.prototype.toISOString().slice(0, 10)` for a day number (years
0000–9999, the only range the resolver produces). -/
def formatISODate (day : Int) : String :=
  let c := fromDayNumber day
  padLeft (toString c.1.toNat) 4 ++ "-" ++ padLeft (toString c.2.1.toNat) 2 ++ "-" ++
    padLeft (toString c.2.2.toNat) 2

/-- Shape-only parse of `YYYY-MM-DD` (the `/^(\d{4})-(\d{2})-(\d{2})$/` regex):
no range validation of month or day. -/
def parseYMDShape (s : String) : Option (Int × Int × Int) :=
  match s.data with
  | [y1, y2, y3, y4, h1, m1, m2, h2, d1, d2] =>
    if h1 = '-' ∧ h2 = '-' ∧ y1.isDigit ∧ y2.isDigit ∧ y3.isDigit ∧ y4.isDigit ∧
        m1.isDigit ∧ m2.isDigit ∧ d1.isDigit ∧ d2.isDigit then
      some ((digitsToNat [y1, y2, y3, y4] : Int), (digitsToNat [m1, m2] : Int),
        (digitsToNat [d1, d2] : Int))
    else none
  | _ => none

/-- Milliseconds value of `Date.UTC(y, m − 1, d, ...)`: out-of-range month and
day roll over (JS normalisation), never NaN for 4-digit years. -/
def jsDateUTCms (y m d : Int) (endOfDay : Bool) : Int :=
  let mi := m - 1
  let yN := y + Int.fdiv mi 12
  let mN := Int.emod mi 12 + 1
  let dayNum := toDayNumber yN mN 1 + (d - 1)
  dayNum * 86400000 + (if endOfDay then 86399999 else 0)

/-! ### Zero-decimal currencies and minor→major conversion
(`stripe-analytics-tools`, also duplicated in `paypal-charge-tool`) -/

/-- The fixed zero-decimal currency vocabulary from the source. -/
def ZERO_DECIMAL_CURRENCIES : List String :=
  ["bif", "clp", "djf", "gnf", "jpy", "kmf", "krw", "mga", "pyg", "rwf", "ugx",
   "vnd", "vuv", "xaf", "xof", "xpf"]

/-- Minor-unit to major-unit conversion: divide by 100 unless the currency is
zero-decimal (divide by 1), then `toFixed(2)`. -/
def convertToMajorUnits (amount : ℚ) (currency : String) : ℚ :=
  let divisor : ℚ := if ZERO_DECIMAL_CURRENCIES.contains (toLowerStr currency) then 1 else 100
  jsToFixed2 (amount / divisor)

/-! ### Date Range Resolver (`anaylitcs-workflow.ts`) -/

/-- `parseISODate`: regex shape check, then `Date.parse` of
`value + "T00:00:00.000Z"` which rejects out-of-range month/day (NaN). Returns
the parsed day number. -/
def parseISODate (value : String) (field : String) : Except String Int :=
  match parseYMDShape value with
  | none =>
    .error ("Invalid " ++ field ++ ". Expected format YYYY-MM-DD, received: " ++ value)
  | some (y, m, d) =>
    if 1 ≤ m ∧ m ≤ 12 ∧ 1 ≤ d ∧ d ≤ daysInMonth y m then .ok (toDayNumber y m d)
    else .error ("Invalid " ++ field ++ ". Unable to parse date: " ++ value)

/-- `addDays` on day numbers. -/
def addDays (d n : Int) : Int := d + n

/-- `ensureChronology`: fail when `end < start`. -/
def ensureChronology (s e : Int) : Except String Unit :=
  if e < s then .error "endDate must be on or after startDate." else .ok ()

/-- `ensureNotFuture`: fail when the date is after today. -/
def ensureNotFuture (d today : Int) (field : String) : Except String Unit :=
  if d > today then .error (field ++ " cannot be in the future.") else .ok ()

/-- `computeDateRange` on day numbers (`today` is the UTC-midnight day number
produced by `startOfUTCDate`); formatting to strings happens in the wrapper
below, exactly where the source calls `formatISODate`. -/
def computeDateRangeCore (startDate endDate : Option String) (today : Int) :
    Except String (Int × Int) :=
  match startDate, endDate with
  | some sv, some ev =>
    match parseISODate sv "startDate" with
    | .error e => .error e
    | .ok s =>
      match parseISODate ev "endDate" with
      | .error e => .error e
      | .ok e2 =>
        match ensureChronology s e2 with
        | .error e => .error e
        | .ok _ =>
          match ensureNotFuture s today "startDate" with
          | .error e => .error e
          | .ok _ =>
            match ensureNotFuture e2 today "endDate" with
            | .error e => .error e
            | .ok _ => .ok (s, e2)
  | some sv, none =>
    match parseISODate sv "startDate" with
    | .error e => .error e
    | .ok s =>
      match ensureNotFuture s today "startDate" with
      | .error e => .error e
      | .ok _ =>
        let tentativeEnd := addDays s 6
        let e2 := if tentativeEnd > today then today else tentativeEnd
        match ensureChronology s e2 with
        | .error e => .error e
        | .ok _ => .ok (s, e2)
  | none, some ev =>
    match parseISODate ev "endDate" with
    | .error e => .error e
    | .ok e2 =>
      match ensureNotFuture e2 today "endDate" with
      | .error e => .error e
      | .ok _ => .ok (addDays e2 (-6), e2)
  | none, none =>
    .ok (addDays today (-6), today)

/-- The resolver's output record. -/
structure DateRangeOut where
  startDate : String
  endDate : String
deriving DecidableEq, Repr

/-- `computeDateRange`: resolve and format both ends as `YYYY-MM-DD`. -/
def computeDateRange (startDate endDate : Option String) (today : Int) :
    Except String DateRangeOut :=
  (computeDateRangeCore startDate endDate today).map fun p =>
    ⟨formatISODate p.1, formatISODate p.2⟩

/-- The claim's failure conditions for the resolver, written from the spec: a
supplied date fails to parse, both dates given with `end < start`, or a
supplied date is after today. -/
def invalidRangeCond (startDate endDate : Option String) (today : Int) : Prop :=
  (∃ sv, startDate = some sv ∧ (parseISODate sv "startDate").isOk = false) ∨
  (∃ ev, endDate = some ev ∧ (parseISODate ev "endDate").isOk = false) ∨
  (∃ sv ev s e, startDate = some sv ∧ endDate = some ev ∧
    parseISODate sv "startDate" = .ok s ∧ parseISODate ev "endDate" = .ok e ∧ e < s) ∨
  (∃ sv s, startDate = some sv ∧ parseISODate sv "startDate" = .ok s ∧ today < s) ∨
  (∃ ev e, endDate = some ev ∧ parseISODate ev "endDate" = .ok e ∧ today < e)

/-! ### Stable sorting and insertion-ordered maps -/

/-- Insert into a descending-sorted list, after any element with an equal key:
the stable insertion step of `Array.prototype.sort` with comparator
`(a, b) => key b - key a`. -/
def insertByDesc {α : Type} (key : α → ℚ) (x : α) : List α → List α
  | [] => [x]
  | y :: ys => if key x > key y then x :: y :: ys else y :: insertByDesc key x ys

/-- Stable descending sort by a rational key. -/
def sortByDesc {α : Type} (key : α → ℚ) (l : List α) : List α :=
  l.foldl (fun acc x => insertByDesc key x acc) []

/-- Update-or-append on an association list keyed by strings: JS `Map.set`
keeps the position of an existing key and appends a new key at the end. -/
def bumpAssoc {β : Type} (k : String) (v0 : β) (upd : β → β) :
    List (String × β) → List (String × β)
  | [] => [(k, v0)]
  | (k2, v2) :: rest =>
    if k2 = k then (k2, upd v2) :: rest else (k2, v2) :: bumpAssoc k v0 upd rest

/-- Add on an association list of rational totals (`merged[k] = (merged[k] ?? 0) + v`). -/
def bumpAmount (k : String) (v : ℚ) (l : List (String × ℚ)) : List (String × ℚ) :=
  bumpAssoc k v (· + v) l

/-! ### Card-payment ledger adapter (`stripe-charge-tool.ts`) -/

/-- Nullable card snapshot (`CardSummary`). -/
structure CardSummary where
  brand : Option String
  country : Option String
  expMonth : Option Int
  expYear : Option Int
  last4 : Option String
  funding : Option String
deriving DecidableEq, Repr

/-- A raw charge as yielded by the Stripe client's auto-paginating iterator.
The `customer` field carries the resolved id (a string id or the id of an
expanded customer object, `none` when absent). -/
structure StripeRawCharge where
  id : String
  amount : ℚ
  currency : String
  status : String
  description : Option String
  customer : Option String
  created : Int
  refunded : Option Bool
  receiptUrl : Option String
  card : Option CardSummary
  metadata : List (String × String)
deriving DecidableEq, Repr

/-- The normalized `ChargeSummary` shape. -/
structure ChargeSummary where
  id : String
  amount : ℚ
  currency : String
  status : String
  description : Option String
  customerId : Option String
  created : Int
  refunded : Bool
  receiptUrl : Option String
  card : Option CardSummary
  metadata : List (String × String)
  metadataAmounts : List (String × ℚ)
deriving DecidableEq, Repr

/-- The metadata keys treated as cent-denominated values. -/
def CENT_VALUE_KEYS : List String :=
  ["gross", "net", "product_gross", "product_net", "product_total",
   "total_additions", "total_cuts", "price", "amount", "subtotal", "tax", "fee"]

/-- The metadata key suffixes treated as cent-denominated values. -/
def CENT_SUFFIXES : List String :=
  ["_gross", "_net", "_total", "_amount", "_price", "_subtotal", "_tax", "_fee"]

/-- `isCentKey`: exact vocabulary match or a cent suffix, case-insensitive. -/
def isCentKey (key : String) : Bool :=
  let normalized := toLowerStr key
  CENT_VALUE_KEYS.contains normalized || CENT_SUFFIXES.any (fun suf => endsWithStr normalized suf)

/-- `extractMetadataAmounts`: keep non-empty cent-keyed entries whose value
parses as a number, divided by 100. -/
def extractMetadataAmounts (metadata : List (String × String)) : List (String × ℚ) :=
  metadata.foldl
    (fun amounts kv =>
      if kv.2 = "" then amounts
      else if ¬ isCentKey kv.1 then amounts
      else
        match jsNumberOfString kv.2 with
        | none => amounts
        | some numeric => bumpAssoc kv.1 (numeric / 100) (fun _ => numeric / 100) amounts)
    []

/-- `parseDateToUnix`: regex shape check, `Date.UTC` (rolls over out-of-range
components), floor to seconds. -/
def parseDateToUnix (date : String) (field : String) : Except String Int :=
  match parseYMDShape date with
  | none =>
    .error ("Invalid " ++ field ++ " supplied. Expected format YYYY-MM-DD, received: " ++ date)
  | some (y, m, d) =>
    .ok (Int.fdiv (jsDateUTCms y m d (field ≠ "startDate")) 1000)

/-- `toCardSummary` is the identity on our already-nullable card snapshot. -/
def toCardSummary (card : Option CardSummary) : Option CardSummary := card

/-- The body of `getStripeCharges`'s `try` block: parse both dates, check
chronology, then consume the charge iterator (its outcome is the `fetched`
parameter), keeping only `succeeded` charges. -/
def getStripeChargesInner (startDate endDate : String)
    (fetched : Except String (List StripeRawCharge)) :
    Except String (List ChargeSummary) :=
  match parseDateToUnix startDate "startDate" with
  | .error e => .error e
  | .ok startTimestamp =>
    match parseDateToUnix endDate "endDate" with
    | .error e => .error e
    | .ok endTimestamp =>
      if endTimestamp < startTimestamp then
        .error "endDate must be after startDate"
      else
        match fetched with
        | .error e => .error e
        | .ok raw =>
          .ok (raw.filterMap fun charge =>
            if charge.status ≠ "succeeded" then none
            else some
              { id := charge.id
                amount := charge.amount
                currency := charge.currency
                status := charge.status
                description := charge.description
                customerId := charge.customer
                created := charge.created
                refunded := charge.refunded.getD false
                receiptUrl := charge.receiptUrl
                card := toCardSummary charge.card
                metadata := charge.metadata
                metadataAmounts := extractMetadataAmounts charge.metadata })

/-- `getStripeCharges`: the whole body is wrapped in `try/catch`; any error is
logged and an empty list is returned. -/
def getStripeCharges (startDate endDate : String)
    (fetched : Except String (List StripeRawCharge)) : List ChargeSummary :=
  match getStripeChargesInner startDate endDate fetched with
  | .ok charges => charges
  | .error _ => []

/-! ### Wallet-payment ledger adapter (`paypal-charge-tool.ts`) -/

/-- The express-checkout transaction event codes. -/
def EXPRESS_CHECKOUT_EVENT_CODES : List String := ["T0006", "T1106", "T1006"]

/-- `PaypalPhone`. -/
structure PaypalPhone where
  nationalNumber : Option String
  extensionNumber : Option String
  phoneType : Option String
  areaCode : Option String
deriving DecidableEq, Repr

/-- `PaypalAddress`. -/
structure PaypalAddress where
  line1 : Option String
  line2 : Option String
  city : Option String
  state : Option String
  countryCode : Option String
  postalCode : Option String
  adminArea1 : Option String
  adminArea2 : Option String
deriving DecidableEq, Repr

/-- `transaction_amount`. -/
structure PaypalAmount where
  currencyCode : Option String
  value : Option String
deriving DecidableEq, Repr

/-- `transaction_info`. -/
structure PaypalTransactionInfo where
  transactionId : Option String
  paypalReferenceId : Option String
  paypalReferenceIdType : Option String
  transactionEventCode : Option String
  transactionEventCodeDescription : Option String
  transactionStatus : Option String
  transactionInitiationDate : Option String
  transactionUpdatedDate : Option String
  transactionAmount : Option PaypalAmount
  invoiceId : Option String
  customField : Option String
deriving DecidableEq, Repr

/-- `payer_info`. -/
structure PaypalPayerInfo where
  emailAddress : Option String
  accountId : Option String
  trxId : Option String
  phone : Option String
  phoneNumber : Option PaypalPhone
  firstName : Option String
  lastName : Option String
  middleName : Option String
  countryCode : Option String
  address : Option PaypalAddress
deriving DecidableEq, Repr

/-- `shipping_info`. -/
structure PaypalShippingInfo where
  name : Option String
  address : Option PaypalAddress
deriving DecidableEq, Repr

/-- `PaypalTransactionDetail`. -/
structure PaypalTransactionDetail where
  transactionInfo : Option PaypalTransactionInfo
  payerInfo : Option PaypalPayerInfo
  shippingInfo : Option PaypalShippingInfo
deriving DecidableEq, Repr

/-- The normalized `CardInfoRecord` (the `provider: 'paypal'` literal is left
implicit: every record of this type is a PayPal record). -/
structure CardInfoRecord where
  orderId : String
  transactionId : String
  amountMinor : ℚ
  amountMajor : ℚ
  createdAtUtc : String
  status : Option String
  currency : Option String
  customerEmail : Option String
  customerPhone : Option String
  city : Option String
  addressCountry : Option String
  issueCountry : Option String
  cardBrand : Option String
  cardFunding : Option String
  cardTokenization : Option String
  cardLast4 : Option String
  avsLine1 : Option String
  avsZip : Option String
  cvcStatus : Option String
deriving DecidableEq, Repr

/-- `toNullableString`: null/empty is null, otherwise the trimmed string when
non-empty. -/
def toNullableString (value : Option String) : Option String :=
  match value with
  | none => none
  | some s =>
    if s = "" then none
    else
      let trimmed := jsTrim s
      if trimmed.length > 0 then some trimmed else none

/-- `toUpper` on a nullable string. -/
def toUpperOpt (value : Option String) : Option String :=
  (toNullableString value).map toUpperStr

/-- `normalizePhone` applied to the structured `phone_number` variant. -/
def normalizePhoneObj (phone : Option PaypalPhone) : Option String :=
  match phone with
  | none => none
  | some p =>
    let national := toNullableString p.nationalNumber
    let extension := toNullableString p.extensionNumber
    match national, extension with
    | some n, some e => some (n ++ " ext " ++ e)
    | _, _ => national <|> extension

/-- `normalizePhone` applied to the plain-string `phone` variant. -/
def normalizePhoneStr (phone : Option String) : Option String :=
  toNullableString phone

/-- `isExpressCheckoutPayment`: event code (upper-cased) in the vocabulary, or
a description containing "express checkout payment" case-insensitively. -/
def isExpressCheckoutPayment (detail : PaypalTransactionDetail) : Bool :=
  let codeHit :=
    match detail.transactionInfo.bind (·.transactionEventCode) with
    | some codeRaw => codeRaw ≠ "" && EXPRESS_CHECKOUT_EVENT_CODES.contains (toUpperStr codeRaw)
    | none => false
  if codeHit then true
  else
    match detail.transactionInfo.bind (·.transactionEventCodeDescription) with
    | some description => containsSubstring (toLowerStr description) "express checkout payment"
    | none => false

/-- `normalizeAmount`: parse the decimal string with `parseFloat`; NaN or
negative normalizes to zero; otherwise scale by the currency's divisor,
`Math.round` to minor units and `toFixed(2)` back to major units. -/
def normalizeAmount (transactionAmount : Option PaypalAmount) : ℚ × ℚ :=
  let valueRaw := transactionAmount.bind (·.value)
  let currency := transactionAmount.bind (·.currencyCode)
  let numeric : Option ℚ := valueRaw.bind parseFloatPrefix
  let normalizedCurrency := (toUpperOpt currency).getD "USD"
  match numeric with
  | none => (0, 0)
  | some q =>
    if q < 0 then (0, 0)
    else
      let divisor : ℚ :=
        if ZERO_DECIMAL_CURRENCIES.contains (toLowerStr normalizedCurrency) then 1 else 100
      let minor : ℤ := round (q * divisor)
      ((minor : ℚ), jsToFixed2 ((minor : ℚ) / divisor))

/-- `mapPaypalTransactionToCardInfo`. Non-express-checkout transactions and
records lacking a transaction id or an order id are dropped (`none`). The
`Date`→ISO normalisation of `createdAtUtc` is modelled as the identity on the
stored string; `now` stands for `new Date()` when the initiation date is
absent. -/
def mapPaypalTransactionToCardInfo (now : String) (detail : PaypalTransactionDetail) :
    Option CardInfoRecord :=
  if ¬ isExpressCheckoutPayment detail then none
  else
    let info := detail.transactionInfo
    let payer := detail.payerInfo
    let shipping := detail.shippingInfo
    let amount := normalizeAmount (info.bind (·.transactionAmount))
    match toNullableString (info.bind (·.transactionId)) with
    | none => none
    | some transactionId =>
      match toNullableString (info.bind (·.invoiceId)) <|>
          toNullableString (info.bind (·.customField)) with
      | none => none
      | some orderId =>
        let initiationDate :=
          match info.bind (·.transactionInitiationDate) with
          | some s => if s ≠ "" then s else now
          | none => now
        let shippingAddress := (shipping.bind (·.address)) <|> (payer.bind (·.address))
        some
          { orderId := orderId
            transactionId := transactionId
            amountMinor := amount.1
            amountMajor := amount.2
            createdAtUtc := initiationDate
            status := toNullableString (info.bind (·.transactionStatus))
            currency := toUpperOpt ((info.bind (·.transactionAmount)).bind (·.currencyCode))
            customerEmail := toNullableString (payer.bind (·.emailAddress))
            customerPhone :=
              normalizePhoneObj (payer.bind (·.phoneNumber)) <|>
                normalizePhoneStr (payer.bind (·.phone))
            city :=
              toNullableString (shippingAddress.bind (·.city)) <|>
                toNullableString (shippingAddress.bind (·.adminArea2))
            addressCountry :=
              toUpperOpt (shippingAddress.bind (·.countryCode)) <|>
                toUpperOpt (payer.bind (·.countryCode))
            issueCountry := none
            cardBrand := none
            cardFunding := none
            cardTokenization := none
            cardLast4 := none
            avsLine1 := none
            avsZip := none
            cvcStatus := none }

/-- `fetchPaypalCardInfo` over an already-fetched transaction list: map and
drop the `null`s. -/
def fetchPaypalCardInfo (now : String) (transactions : List PaypalTransactionDetail) :
    List CardInfoRecord :=
  (transactions.map (mapPaypalTransactionToCardInfo now)).filterMap id

/-- `parseDate` of the PayPal tool: regex shape check then `Date.UTC`
(midnight for the start, 23:59:59.999 for the end); returns milliseconds. -/
def paypalParseDate (date : String) (field : String) (isStart : Bool) :
    Except String Int :=
  match parseYMDShape date with
  | none =>
    .error ("Invalid " ++ field ++ " supplied. Expected format YYYY-MM-DD, received: " ++ date)
  | some (y, m, d) => .ok (jsDateUTCms y m d (¬ isStart))

/-- `parseDateRange` of the PayPal tool. -/
def parseDateRange (startDate endDate : String) : Except String (Int × Int) :=
  match paypalParseDate startDate "startDate" true with
  | .error e => .error e
  | .ok s =>
    match paypalParseDate endDate "endDate" false with
    | .error e => .error e
    | .ok e2 =>
      if e2 < s then .error "endDate must be after startDate" else .ok (s, e2)

/-- `paypalChargeTool.execute`: parse the range and fetch; any error
(including a fetch failure) is caught, logged and an empty list returned. -/
def paypalChargeToolExecute (startDate endDate : String) (now : String)
    (fetchOutcome : Except String (List PaypalTransactionDetail)) : List CardInfoRecord :=
  match parseDateRange startDate endDate with
  | .error _ => []
  | .ok _ =>
    match fetchOutcome with
    | .error _ => []
    | .ok transactions => fetchPaypalCardInfo now transactions

/-! ### Shared time/format helpers of the rollup tools -/

/-- Parse an ISO `YYYY-MM-DD` or `YYYY-MM-DDTHH:MM:SS[.mmm]Z` string to epoch
milliseconds; `none` models an invalid `Date` (NaN). -/
def parseTimeOfDay (cs : List Char) : Option Int :=
  match cs with
  | [h1, h2, c1, m1, m2, c2, s1, s2, z] =>
    if c1 = ':' ∧ c2 = ':' ∧ z = 'Z' ∧ h1.isDigit ∧ h2.isDigit ∧ m1.isDigit ∧ m2.isDigit ∧
        s1.isDigit ∧ s2.isDigit then
      let h := digitsToNat [h1, h2]
      let mi := digitsToNat [m1, m2]
      let se := digitsToNat [s1, s2]
      if h ≤ 23 ∧ mi ≤ 59 ∧ se ≤ 59 then
        some ((((h * 60 + mi) * 60 + se) * 1000 : Nat) : Int)
      else none
    else none
  | [h1, h2, c1, m1, m2, c2, s1, s2, dot, f1, f2, f3, z] =>
    if c1 = ':' ∧ c2 = ':' ∧ dot = '.' ∧ z = 'Z' ∧ h1.isDigit ∧ h2.isDigit ∧ m1.isDigit ∧
        m2.isDigit ∧ s1.isDigit ∧ s2.isDigit ∧ f1.isDigit ∧ f2.isDigit ∧ f3.isDigit then
      let h := digitsToNat [h1, h2]
      let mi := digitsToNat [m1, m2]
      let se := digitsToNat [s1, s2]
      if h ≤ 23 ∧ mi ≤ 59 ∧ se ≤ 59 then
        some ((((h * 60 + mi) * 60 + se) * 1000 + digitsToNat [f1, f2, f3] : Nat) : Int)
      else none
    else none
  | _ => none

/-- `new Date(string).getTime()` for the ISO shapes the adapters produce;
`none` models NaN. -/
def jsTimeMs (s : String) : Option Int :=
  let cs := s.data
  match parseYMDShape (String.mk (cs.take 10)) with
  | none => none
  | some (y, m, d) =>
    if 1 ≤ m ∧ m ≤ 12 ∧ 1 ≤ d ∧ d ≤ daysInMonth y m then
      match cs.drop 10 with
      | [] => some (toDayNumber y m d * 86400000)
      | 'T' :: rest => (parseTimeOfDay rest).map (fun ms => toDayNumber y m d * 86400000 + ms)
      | _ => none
    else none

/-- NaN-aware `>` on `new Date(...).getTime()` values: any comparison with NaN
is false. -/
def jsTimeGt (a b : String) : Bool :=
  match jsTimeMs a, jsTimeMs b with
  | some x, some y => x > y
  | _, _ => false

/-- Group the digits of an integer part into threes (reversed input). -/
def groupDigitsRev : List Char → List Char
  | a :: b :: c :: rest@(_ :: _) => a :: b :: c :: ',' :: groupDigitsRev rest
  | l => l

/-- `toLocaleString('en-US', {minimumFractionDigits: 2, maximumFractionDigits: 2})`:
round to 2 decimals half away from zero, group integer digits by threes. -/
def formatMajor (value : ℚ) : String :=
  let neg := value < 0
  let cents : ℤ := ⌊|value| * 100 + 1 / 2⌋
  let ip := cents / 100
  let fp := cents % 100
  (if neg then "-" else "") ++
    String.mk ((groupDigitsRev (toString ip.toNat).data.reverse).reverse) ++ "." ++
    padLeft (toString fp.toNat) 2

/-- `formatDate` of the PayPal analytics tools: date part of a parseable ISO
string, the raw string otherwise. -/
def formatDatePaypal (iso : String) : String :=
  match jsTimeMs iso with
  | none => iso
  | some ms => formatISODate (Int.fdiv ms 86400000)

/-- `formatDate` of the Stripe analytics tools: date part of a Unix-seconds
timestamp. -/
def formatDateStripe (unixSeconds : Int) : String :=
  formatISODate (Int.fdiv (unixSeconds * 1000) 86400000)

/-! ### PayPal revenue rollup (`paypal-analytics-tools`, first half of the
source file) -/

/-- `isRefunded`: status contains "refund" or equals "reversed"/"cancelled",
case-insensitively; null/empty is not refunded. -/
def isRefunded (status : Option String) : Bool :=
  match status with
  | none => false
  | some s =>
    if s = "" then false
    else
      let normalized := toLowerStr s
      containsSubstring normalized "refund" || normalized = "reversed" ||
        normalized = "cancelled"

/-- `deriveCustomerId`: email, else phone, else "unknown". -/
def deriveCustomerId (charge : CardInfoRecord) : String :=
  (charge.customerEmail <|> charge.customerPhone).getD "unknown"

/-- Accumulator entry of the PayPal `aggregateByCurrency` map. -/
structure PaypalCurrencyEntry where
  transactionCount : Nat
  refundedCount : Nat
  grossAmountMinor : ℚ
  grossAmountMajor : ℚ
deriving DecidableEq, Repr

/-- A row of the PayPal currency breakdown. -/
structure PaypalCurrencyBreakdown where
  currency : String
  transactionCount : Nat
  refundedCount : Nat
  grossAmountMinor : ℚ
  grossAmountMajor : ℚ
  averageTicketMajor : Option ℚ
deriving DecidableEq, Repr

/-- PayPal `aggregateByCurrency`: group by `(currency ?? 'USD').toUpperCase()`,
sum minor and major amounts, count refunds, then round and sort descending by
gross major. -/
def aggregateByCurrencyPaypal (charges : List CardInfoRecord) :
    List PaypalCurrencyBreakdown :=
  let m := charges.foldl
    (fun m charge =>
      let currency := toUpperStr ((charge.currency).getD "USD")
      let refundedInc : Nat := if isRefunded charge.status then 1 else 0
      bumpAssoc currency
        ⟨1, refundedInc, charge.amountMinor, charge.amountMajor⟩
        (fun e =>
          ⟨e.transactionCount + 1, e.refundedCount + refundedInc,
            e.grossAmountMinor + charge.amountMinor,
            e.grossAmountMajor + charge.amountMajor⟩) m)
    ([] : List (String × PaypalCurrencyEntry))
  let breakdown := m.map fun kv =>
    { currency := kv.1
      transactionCount := kv.2.transactionCount
      refundedCount := kv.2.refundedCount
      grossAmountMinor := kv.2.grossAmountMinor
      grossAmountMajor := jsToFixed2 kv.2.grossAmountMajor
      averageTicketMajor :=
        if kv.2.transactionCount > 0 then
          some (jsToFixed2 (kv.2.grossAmountMajor / (kv.2.transactionCount : ℚ)))
        else none }
  sortByDesc (·.grossAmountMajor) breakdown

/-- Accumulator of the PayPal customer map. -/
structure PaypalCustomerAcc where
  transactionCount : Nat
  grossAmountMinor : ℚ
  grossAmountMajor : ℚ
  lastTransactionId : String
  lastTransactionCreated : String
  charges : List CardInfoRecord
deriving DecidableEq, Repr

/-- A PayPal top-customer summary row. -/
structure PaypalTopCustomer where
  customerId : String
  transactionCount : Nat
  grossAmountMinor : ℚ
  grossAmountMajor : ℚ
  lastTransactionId : String
  lastTransactionCreated : String
  currencyBreakdown : List PaypalCurrencyBreakdown
deriving DecidableEq, Repr

/-- Output of the PayPal top-customers rollup. -/
structure PaypalTopCustomersOutput where
  rangeStartDate : String
  rangeEndDate : String
  totalCustomers : Nat
  topCustomers : List PaypalTopCustomer
  insights : List String
deriving DecidableEq, Repr

/-- One step of the PayPal customer-map fold. -/
def paypalCustomerFold (m : List (String × PaypalCustomerAcc)) (charge : CardInfoRecord) :
    List (String × PaypalCustomerAcc) :=
  bumpAssoc (deriveCustomerId charge)
    ⟨1, charge.amountMinor, charge.amountMajor, charge.transactionId, charge.createdAtUtc,
      [charge]⟩
    (fun e =>
      let base : PaypalCustomerAcc :=
        { e with
          transactionCount := e.transactionCount + 1
          grossAmountMinor := e.grossAmountMinor + charge.amountMinor
          grossAmountMajor := e.grossAmountMajor + charge.amountMajor
          charges := e.charges ++ [charge] }
      if jsTimeGt charge.createdAtUtc e.lastTransactionCreated then
        { base with
          lastTransactionCreated := charge.createdAtUtc
          lastTransactionId := charge.transactionId }
      else base) m

/-- PayPal `generateTopCustomerInsights`. -/
def generateTopCustomerInsightsPaypal (startDate endDate : String) (totalCustomers : Nat)
    (topCustomers : List PaypalTopCustomer) (limit : Nat) : List String :=
  if totalCustomers = 0 then
    ["No PayPal customer activity detected between " ++ startDate ++ " and " ++ endDate ++ "."]
  else
    let displayedCount := topCustomers.length
    let displayedGross := topCustomers.foldl (fun sum c => sum + c.grossAmountMajor) 0
    let headline :=
      toString totalCustomers ++ " PayPal customers transacted between " ++ startDate ++
        " and " ++ endDate ++ "; top " ++ toString displayedCount ++ " accounted for " ++
        formatMajor (jsToFixed2 displayedGross) ++ "."
    let leaderPart :=
      match topCustomers.head? with
      | some leader =>
        ["Top customer " ++ leader.customerId ++ " contributed " ++
          formatMajor leader.grossAmountMajor ++ " across " ++
          toString leader.transactionCount ++ " transactions; last activity " ++
          formatDatePaypal leader.lastTransactionCreated ++ "."]
      | none => []
    let tailPart :=
      if totalCustomers > limit ∧ displayedCount > 0 then
        ["Additional " ++ toString (totalCustomers - displayedCount) ++
          " customers generated the remainder of volume."]
      else []
    headline :: leaderPart ++ tailPart

/-- PayPal `buildTopCustomersSummary`. -/
def buildTopCustomersSummaryPaypal (startDate endDate : String)
    (charges : List CardInfoRecord) (limit : Nat) : PaypalTopCustomersOutput :=
  let customerMap := charges.foldl paypalCustomerFold ([] : List (String × PaypalCustomerAcc))
  let customerSummaries :=
    (sortByDesc (·.grossAmountMajor)
      (customerMap.map fun kv =>
        { customerId := kv.1
          transactionCount := kv.2.transactionCount
          grossAmountMinor := kv.2.grossAmountMinor
          grossAmountMajor := jsToFixed2 kv.2.grossAmountMajor
          lastTransactionId := kv.2.lastTransactionId
          lastTransactionCreated := kv.2.lastTransactionCreated
          currencyBreakdown := aggregateByCurrencyPaypal kv.2.charges
          : PaypalTopCustomer })).take limit
  { rangeStartDate := startDate
    rangeEndDate := endDate
    totalCustomers := customerMap.length
    topCustomers := customerSummaries
    insights :=
      generateTopCustomerInsightsPaypal startDate endDate customerMap.length
        customerSummaries limit }

/-! ### Stripe revenue rollup (`stripe-analytics-tools`, second half of the
source file) -/

/-- Accumulator entry of the Stripe `aggregateByCurrency` map. -/
structure StripeCurrencyEntry where
  chargeCount : Nat
  refundedCount : Nat
  grossAmountMinor : ℚ
deriving DecidableEq, Repr

/-- A row of the Stripe currency breakdown. -/
structure StripeCurrencyBreakdown where
  currency : String
  chargeCount : Nat
  refundedCount : Nat
  grossAmountMinor : ℚ
  grossAmountMajor : ℚ
  averageTicketMajor : Option ℚ
deriving DecidableEq, Repr

/-- Stripe `aggregateByCurrency`: group by `currency.toLowerCase()`, sum minor
units and refunded counts, convert to major units, sort descending by gross
major. -/
def aggregateByCurrencyStripe (charges : List ChargeSummary) :
    List StripeCurrencyBreakdown :=
  let m := charges.foldl
    (fun m charge =>
      let currency := toLowerStr charge.currency
      let refundedInc : Nat := if charge.refunded then 1 else 0
      bumpAssoc currency
        ⟨1, refundedInc, charge.amount⟩
        (fun e => ⟨e.chargeCount + 1, e.refundedCount + refundedInc,
          e.grossAmountMinor + charge.amount⟩) m)
    ([] : List (String × StripeCurrencyEntry))
  let breakdown := m.map fun kv =>
    let grossAmountMajor := convertToMajorUnits kv.2.grossAmountMinor kv.1
    { currency := kv.1
      chargeCount := kv.2.chargeCount
      refundedCount := kv.2.refundedCount
      grossAmountMinor := kv.2.grossAmountMinor
      grossAmountMajor := grossAmountMajor
      averageTicketMajor :=
        if kv.2.chargeCount > 0 then
          some (jsToFixed2 (grossAmountMajor / (kv.2.chargeCount : ℚ)))
        else none }
  sortByDesc (·.grossAmountMajor) breakdown

/-- `sumMajorAmount`: per-charge major conversion summed and rounded. -/
def sumMajorAmount (charges : List ChargeSummary) : ℚ :=
  jsToFixed2 (charges.foldl (fun acc charge =>
    acc + convertToMajorUnits charge.amount charge.currency) 0)

/-- `mergeMetadataTotals`. -/
def mergeMetadataTotals (base addition : List (String × ℚ)) : List (String × ℚ) :=
  addition.foldl (fun merged kv => bumpAmount kv.1 kv.2 merged) base

/-- Accumulator of the Stripe customer map. -/
structure StripeCustomerAcc where
  chargeCount : Nat
  grossAmountMinor : ℚ
  lastChargeCreated : Int
  lastChargeId : String
  charges : List ChargeSummary
  metadataTotals : List (String × ℚ)
deriving DecidableEq, Repr

/-- A Stripe top-customer summary row. -/
structure StripeTopCustomer where
  customerId : String
  chargeCount : Nat
  grossAmountMinor : ℚ
  grossAmountMajor : ℚ
  lastChargeId : String
  lastChargeCreated : Int
  currencyBreakdown : List StripeCurrencyBreakdown
  metadataTotals : List (String × ℚ)
deriving DecidableEq, Repr

/-- Output of the Stripe top-customers rollup. -/
structure StripeTopCustomersOutput where
  rangeStartDate : String
  rangeEndDate : String
  totalCustomers : Nat
  topCustomers : List StripeTopCustomer
  insights : List String
deriving DecidableEq, Repr

/-- One step of the Stripe customer-map fold. -/
def stripeCustomerFold (m : List (String × StripeCustomerAcc)) (charge : ChargeSummary) :
    List (String × StripeCustomerAcc) :=
  bumpAssoc (charge.customerId.getD "unknown")
    ⟨1, charge.amount, charge.created, charge.id, [charge], charge.metadataAmounts⟩
    (fun e =>
      let base : StripeCustomerAcc :=
        { e with
          chargeCount := e.chargeCount + 1
          grossAmountMinor := e.grossAmountMinor + charge.amount
          charges := e.charges ++ [charge]
          metadataTotals := mergeMetadataTotals e.metadataTotals charge.metadataAmounts }
      if charge.created > e.lastChargeCreated then
        { base with lastChargeCreated := charge.created, lastChargeId := charge.id }
      else base) m

/-- Stripe `generateTopCustomerInsights`. -/
def generateTopCustomerInsightsStripe (startDate endDate : String) (totalCustomers : Nat)
    (topCustomers : List StripeTopCustomer) (limit : Nat) : List String :=
  if totalCustomers = 0 then
    ["No customer activity detected between " ++ startDate ++ " and " ++ endDate ++ "."]
  else
    let displayedCount := topCustomers.length
    let displayedGross := topCustomers.foldl (fun sum c => sum + c.grossAmountMajor) 0
    let headline :=
      toString totalCustomers ++ " customers transacted between " ++ startDate ++ " and " ++
        endDate ++ "; top " ++ toString displayedCount ++ " accounted for " ++
        formatMajor displayedGross ++ "."
    let leaderPart :=
      match topCustomers.head? with
      | some leader =>
        let first :=
          "Top customer " ++ leader.customerId ++ " generated " ++
            formatMajor leader.grossAmountMajor ++ " across " ++
            toString leader.chargeCount ++ " charges; last purchase on " ++
            formatDateStripe leader.lastChargeCreated ++ "."
        let currencyPart :=
          match leader.currencyBreakdown.head? with
          | some leaderCurrency =>
            [leader.customerId ++ " primarily paid in " ++ toUpperStr leaderCurrency.currency ++
              " totaling " ++ formatMajor leaderCurrency.grossAmountMajor ++ "."]
          | none => []
        let customerMetadata :=
          sortByDesc (fun kv => |kv.2|) (leader.metadataTotals.filter (fun kv => kv.2 ≠ 0))
        let metadataPart :=
          if customerMetadata.length > 0 then
            ["Key metadata for " ++ leader.customerId ++ ": " ++
              String.intercalate ", "
                ((customerMetadata.take 2).map fun kv => kv.1 ++ ": " ++ formatMajor kv.2) ++
              "."]
          else []
        first :: currencyPart ++ metadataPart
      | none => []
    let tailPart :=
      if totalCustomers > displayedCount then
        ["Only top " ++ toString displayedCount ++ " of " ++ toString totalCustomers ++
          " customers shown (limit " ++ toString limit ++ ")."]
      else []
    headline :: leaderPart ++ tailPart

/-- Stripe `buildTopCustomersSummary`. -/
def buildTopCustomersSummaryStripe (startDate endDate : String)
    (charges : List ChargeSummary) (limit : Nat) : StripeTopCustomersOutput :=
  let customerMap := charges.foldl stripeCustomerFold ([] : List (String × StripeCustomerAcc))
  let customerSummaries :=
    (sortByDesc (·.grossAmountMajor)
      (customerMap.map fun kv =>
        { customerId := kv.1
          chargeCount := kv.2.chargeCount
          grossAmountMinor := kv.2.grossAmountMinor
          grossAmountMajor := sumMajorAmount kv.2.charges
          lastChargeId := kv.2.lastChargeId
          lastChargeCreated := kv.2.lastChargeCreated
          currencyBreakdown := aggregateByCurrencyStripe kv.2.charges
          metadataTotals := kv.2.metadataTotals
          : StripeTopCustomer })).take limit
  { rangeStartDate := startDate
    rangeEndDate := endDate
    totalCustomers := customerMap.length
    topCustomers := customerSummaries
    insights :=
      generateTopCustomerInsightsStripe startDate endDate customerMap.length
        customerSummaries limit }

/-! ### Multi-page accumulation (`bigqueryPurchaseSessionsTool.execute`) -/

/-- The accumulation loop of `execute` with `fetchAllPages = true`. `fetch`
maps a page number to its rows; the result pairs the accumulated rows with the
number of fetch calls performed. The loop re-enters only while a full page of
at least one row was appended and the target is not reached, so `target + 1`
units of fuel are always enough. -/
def fetchLoop {α : Type} (fetch : Nat → List α) (perPage target : Nat) :
    Nat → Nat → List α → Nat → List α × Nat
  | 0, _, rows, calls => (rows, calls)
  | fuel + 1, page, rows, calls =>
    if rows.length < target then
      let batch := fetch page
      if batch.length = 0 then (rows, calls + 1)
      else
        let rows2 := rows ++ batch
        if batch.length < perPage then (rows2, calls + 1)
        else fetchLoop fetch perPage target fuel (page + 1) rows2 (calls + 1)
    else (rows, calls)

/-- `execute` in multi-page mode: run the loop from the requested page and
truncate to the target limit; also reports the number of fetch calls. -/
def bigqueryFetchAllPages {α : Type} (fetch : Nat → List α) (perPage target page : Nat) :
    List α × Nat :=
  let r := fetchLoop fetch perPage target (target + 1) page [] 0
  (r.1.take target, r.2)

/-- A paginated data source over a fixed row list: page `p` holds rows
`[(p − 1) · pageSize, p · pageSize)`, as served by the single-shot
`LIMIT/OFFSET` query the loop calls. -/
def pagedFetch {α : Type} (allRows : List α) (pageSize p : Nat) : List α :=
  ((allRows.drop ((p - 1) * pageSize)).take pageSize)

/-! ### GA4 purchase-sessions attribution (`PURCHASE_SESSIONS_QUERY_TEMPLATE`
in `lib/bigquery`) -/

/-- The attribution-relevant projection of one warehouse event row
(`events_base`): name, timestamp, page params and the `session_start` campaign
params. -/
structure GAEvent where
  eventTs : Nat
  eventName : String
  pageLocation : Option String
  pageReferrer : Option String
  sourceStart : Option String
  mediumStart : Option String
  campaignStart : Option String
  gclidStart : Option String
  dclidStart : Option String
deriving DecidableEq, Repr

/-- Stable ascending insertion by timestamp (models `ORDER BY event_ts ASC`,
ties kept in input order). -/
def insertByTs (x : GAEvent) : List GAEvent → List GAEvent
  | [] => [x]
  | y :: ys => if x.eventTs < y.eventTs then x :: y :: ys else y :: insertByTs x ys

/-- Sort a session's events by timestamp (stable). -/
def sortByTs (evs : List GAEvent) : List GAEvent :=
  evs.foldl (fun acc x => insertByTs x acc) []

/-- The `starts` CTE row for one session. -/
structure StartsRow where
  utmSourceStart : Option String
  utmMediumStart : Option String
  utmCampaignStart : Option String
  gclidStart : Option String
  dclidStart : Option String
deriving DecidableEq, Repr

/-- The `starts` CTE: aggregate over the session's `session_start` events;
absent when there is none. BigQuery `ANY_VALUE` is an arbitrary row's value —
modelled deterministically as the chronologically first row's value. -/
def startsRow (evs : List GAEvent) : Option StartsRow :=
  match (sortByTs evs).filter (·.eventName = "session_start") with
  | [] => none
  | e :: _ => some ⟨e.sourceStart, e.mediumStart, e.campaignStart, e.gclidStart, e.dclidStart⟩

/-- `session_pages.landing_url`: the first chronological `page_view` with a
non-null `page_location` (`ARRAY_AGG(... IGNORE NULLS ORDER BY event_ts)[0]`,
NULL when empty). -/
def landingUrl (evs : List GAEvent) : Option String :=
  ((sortByTs evs).filterMap fun e =>
    if e.eventName = "page_view" then e.pageLocation else none).head?

/-- `REGEXP_EXTRACT(url, r'[?&]key=([^&#]*)')`: value of the first occurrence
of `?key=` or `&key=`, captured up to `&` or `#` (possibly empty). -/
def scanQueryParam (pat : List Char) : List Char → Option (List Char)
  | [] => none
  | c :: rest =>
    if (c = '?' ∨ c = '&') ∧ pat.isPrefixOf rest then
      some ((rest.drop pat.length).takeWhile fun c2 => c2 ≠ '&' ∧ c2 ≠ '#')
    else scanQueryParam pat rest

/-- String-level wrapper of `scanQueryParam` for a named query parameter. -/
def extractQueryParam (url key : String) : Option String :=
  (scanQueryParam (key ++ "=").data url.data).map String.mk

/-- `REGEXP_EXTRACT(url, r'^https?://([^/:]+)')`: the host part of an
`http(s)` URL; `none` when the scheme is absent or the host empty. -/
def extractHost (url : String) : Option String :=
  let cs := url.data
  let rest? : Option (List Char) :=
    if "https://".data.isPrefixOf cs then some (cs.drop 8)
    else if "http://".data.isPrefixOf cs then some (cs.drop 7)
    else none
  match rest? with
  | none => none
  | some rest =>
    let host := rest.takeWhile fun c => c ≠ '/' ∧ c ≠ ':'
    if host = [] then none else some (String.mk host)

/-- `REGEXP_CONTAINS(host, r'(^|\.)superalink\.com$')` on the lowercased
extracted host: the site's own domain or any of its subdomains. -/
def isOwnDomainHost (host : String) : Bool :=
  host = "superalink.com" || endsWithStr host ".superalink.com"

/-- Whether a `page_view`'s referrer survives the `first_ext_ref` filter:
non-null, non-empty, and its extracted host (lowercased, empty when not
extractable) is not the site's own domain. -/
def qualifiesAsExternalReferrer (r : String) : Bool :=
  r ≠ "" && !(isOwnDomainHost (toLowerStr ((extractHost r).getD "")))

/-- `first_ext_ref.first_referrer`: the first chronological qualifying
`page_view` referrer, NULL when the session has none. -/
def firstExtRef (evs : List GAEvent) : Option String :=
  ((sortByTs evs).filterMap fun e =>
    if e.eventName = "page_view" then
      match e.pageReferrer with
      | some r => if qualifiesAsExternalReferrer r then some r else none
      | none => none
    else none).head?

/-- `REGEXP_CONTAINS(referrer, r'(?i)://(www\.)?<engine>\.')`: the engine
pattern is anchored right after a `://`, optionally preceded by `www.` — it is
not a substring match on the host. -/
def matchesEngine (r engine : String) : Bool :=
  let l := toLowerStr r
  containsSubstring l ("://" ++ engine ++ ".") ||
    containsSubstring l ("://www." ++ engine ++ ".")

/-- The `ref_derived` CTE row. -/
structure RefDerived where
  refSource : Option String
  refMedium : Option String
deriving DecidableEq, Repr

/-- `ref_derived`: classify the first external referrer. The two `CASE`
expressions of the source are mirrored as two if-chains. -/
def refDerived (firstReferrer : Option String) : RefDerived :=
  match firstReferrer with
  | none => ⟨none, none⟩
  | some r =>
    let refMedium :=
      if matchesEngine r "google" then some "organic"
      else if matchesEngine r "bing" then some "organic"
      else if matchesEngine r "search.yahoo" then some "organic"
      else if matchesEngine r "duckduckgo" then some "organic"
      else if matchesEngine r "baidu" then some "organic"
      else if matchesEngine r "yandex" then some "organic"
      else some "referral"
    let refSource :=
      if matchesEngine r "google" then some "google"
      else if matchesEngine r "bing" then some "bing"
      else if matchesEngine r "search.yahoo" then some "yahoo"
      else if matchesEngine r "duckduckgo" then some "duckduckgo"
      else if matchesEngine r "baidu" then some "baidu"
      else if matchesEngine r "yandex" then some "yandex"
      else (extractHost r).map toLowerStr
    ⟨refSource, refMedium⟩

/-- The attribution inputs of one `sessions_final` row: the left-joined
`starts`, `utm_from_landing` and `ref_derived` columns (all NULLable). -/
structure SessionJoin where
  utmSourceStart : Option String
  utmMediumStart : Option String
  utmCampaignStart : Option String
  gclidStart : Option String
  dclidStart : Option String
  utmSourceLp : Option String
  utmMediumLp : Option String
  utmCampaignLp : Option String
  utmTermLp : Option String
  utmContentLp : Option String
  gclidLp : Option String
  dclidLp : Option String
  refSource : Option String
  refMedium : Option String
deriving DecidableEq, Repr

/-- Assemble the attribution inputs of a session from its events, following
the CTE pipeline (`starts`, `session_pages` → `utm_from_landing`,
`first_ext_ref` → `ref_derived`). -/
def sessionJoinOfEvents (evs : List GAEvent) : SessionJoin :=
  let st := startsRow evs
  let lu := landingUrl evs
  let rd := refDerived (firstExtRef evs)
  { utmSourceStart := st.bind (·.utmSourceStart)
    utmMediumStart := st.bind (·.utmMediumStart)
    utmCampaignStart := st.bind (·.utmCampaignStart)
    gclidStart := st.bind (·.gclidStart)
    dclidStart := st.bind (·.dclidStart)
    utmSourceLp := lu.bind (fun u => extractQueryParam u "utm_source")
    utmMediumLp := lu.bind (fun u => extractQueryParam u "utm_medium")
    utmCampaignLp := lu.bind (fun u => extractQueryParam u "utm_campaign")
    utmTermLp := lu.bind (fun u => extractQueryParam u "utm_term")
    utmContentLp := lu.bind (fun u => extractQueryParam u "utm_content")
    gclidLp := lu.bind (fun u => extractQueryParam u "gclid")
    dclidLp := lu.bind (fun u => extractQueryParam u "dclid")
    refSource := rd.refSource
    refMedium := rd.refMedium }

/-- The single attribution verdict of a session. -/
structure Verdict where
  sourceType : String
  source : String
  medium : String
  campaign : String
  gclid : Option String
  dclid : Option String
deriving DecidableEq, Repr

/-- The `traffic_*` columns of `sessions_final`: the priority `CASE` for the
source type and the three `COALESCE` cascades, plus the `gclid`/`dclid`
coalesces. Being a function of the session row, it yields exactly one verdict
per session. -/
def attributionOf (j : SessionJoin) : Verdict :=
  { sourceType :=
      if j.utmSourceStart.isSome || j.utmMediumStart.isSome then "session_start"
      else if j.utmSourceLp.isSome || j.utmMediumLp.isSome then "first_pageview_utm"
      else if j.refSource.isSome then "referrer"
      else "direct"
    source := (j.utmSourceStart <|> j.utmSourceLp <|> j.refSource).getD "(direct)"
    medium := (j.utmMediumStart <|> j.utmMediumLp <|> j.refMedium).getD "(none)"
    campaign := (j.utmCampaignStart <|> j.utmCampaignLp).getD "(not set)"
    gclid := j.gclidStart <|> j.gclidLp
    dclid := j.dclidStart <|> j.dclidLp }

/-! ### Concrete sample inputs used by witnesses and counterexamples -/

/-- A `page_view` event whose referrer host merely contains "google" as a
substring (`news.google.com`). -/
def gaNewsGoogleEvent : GAEvent :=
  { eventTs := 0, eventName := "page_view",
    pageLocation := some "https://superalink.com/home",
    pageReferrer := some "https://news.google.com/article",
    sourceStart := none, mediumStart := none, campaignStart := none,
    gclidStart := none, dclidStart := none }

/-- A `page_view` event with a plain `www.google.com` referrer. -/
def gaGoogleEvent : GAEvent :=
  { eventTs := 0, eventName := "page_view",
    pageLocation := some "https://superalink.com/home",
    pageReferrer := some "https://www.google.com/",
    sourceStart := none, mediumStart := none, campaignStart := none,
    gclidStart := none, dclidStart := none }

/-- A minimal succeeded Stripe charge in a given currency. -/
def sampleStripeCharge (cur : String) : ChargeSummary :=
  { id := "ch_1", amount := 100, currency := cur, status := "succeeded",
    description := none, customerId := none, created := 0, refunded := false,
    receiptUrl := none, card := none, metadata := [], metadataAmounts := [] }

/-- A minimal PayPal card-info record in a given currency. -/
def samplePaypalCharge (cur : String) : CardInfoRecord :=
  { orderId := "o1", transactionId := "t1", amountMinor := 100, amountMajor := 1,
    createdAtUtc := "2024-01-01T00:00:00Z", status := some "S", currency := some cur,
    customerEmail := none, customerPhone := none, city := none, addressCountry := none,
    issueCountry := none, cardBrand := none, cardFunding := none,
    cardTokenization := none, cardLast4 := none, avsLine1 := none, avsZip := none,
    cvcStatus := none }

/-- A well-formed express-checkout PayPal transaction detail. -/
def paypalSampleDetail : PaypalTransactionDetail :=
  { transactionInfo := some
      { transactionId := some " TX123 ", paypalReferenceId := none,
        paypalReferenceIdType := none, transactionEventCode := some "t0006",
        transactionEventCodeDescription := none, transactionStatus := some "S",
        transactionInitiationDate := some "2024-03-01T10:00:00Z",
        transactionUpdatedDate := none,
        transactionAmount := some { currencyCode := some "usd", value := some "12.34" },
        invoiceId := some "INV-1", customField := none }
    payerInfo := none
    shippingInfo := none }

/-- The card-info record produced from `paypalSampleDetail` (the amount fields
are spelled as the adapter's own normalisation of the sample amount, which
evaluates to 1234 minor units and 12.34 major units). -/
def paypalSampleRecord : CardInfoRecord :=
  { orderId := "INV-1", transactionId := "TX123",
    amountMinor :=
      (normalizeAmount ((paypalSampleDetail.transactionInfo).bind
        (·.transactionAmount))).1,
    amountMajor :=
      (normalizeAmount ((paypalSampleDetail.transactionInfo).bind
        (·.transactionAmount))).2,
    createdAtUtc := "2024-03-01T10:00:00Z",
    status := some "S", currency := some "USD", customerEmail := none,
    customerPhone := none, city := none, addressCountry := none, issueCountry := none,
    cardBrand := none, cardFunding := none, cardTokenization := none,
    cardLast4 := none, avsLine1 := none, avsZip := none, cvcStatus := none }

/-- The single breakdown row of `aggregateByCurrencyStripe [sampleStripeCharge "USD"]`. -/
def sampleStripeBreakdownUsd : StripeCurrencyBreakdown :=
  { currency := "usd", chargeCount := 1, refundedCount := 0, grossAmountMinor := 100,
    grossAmountMajor := convertToMajorUnits 100 "usd",
    averageTicketMajor :=
      some (jsToFixed2 (convertToMajorUnits 100 "usd" / ((1 : ℕ) : ℚ))) }

/-! ### Helper lemmas -/

/-- Rounding to two decimals is exact on integers. -/
theorem jsToFixed2_intCast (n : ℤ) : jsToFixed2 ((n : ℚ)) = (n : ℚ) := by
  unfold jsToFixed2
  have h : ((n : ℚ)) * 100 = ((n * 100 : ℤ) : ℚ) := by push_cast; ring
  rw [h, round_intCast]
  push_cast
  ring

/-- Rounding to two decimals is exact on integer cents. -/
theorem jsToFixed2_int_div_100 (n : ℤ) : jsToFixed2 ((n : ℚ) / 100) = (n : ℚ) / 100 := by
  unfold jsToFixed2
  have h : ((n : ℚ) / 100) * 100 = (n : ℚ) := by field_simp
  rw [h, round_intCast]

/-- `Except.map` preserves `isOk`. -/
theorem exceptMap_isOk {α β γ : Type} (f : α → β) (x : Except γ α) :
    (x.map f).isOk = x.isOk := by
  cases x <;> rfl

/-- `insertByDesc` permutes consing. -/
theorem insertByDesc_perm {α : Type} (key : α → ℚ) (x : α) (l : List α) :
    List.Perm (insertByDesc key x l) (x :: l) := by
  induction l with
  | nil => exact List.Perm.refl _
  | cons y ys ih =>
    simp only [insertByDesc]
    split
    · exact List.Perm.refl _
    · exact (ih.cons y).trans (List.Perm.swap x y ys)

/-- The stable descending sort is a permutation of its input. -/
theorem sortByDesc_perm {α : Type} (key : α → ℚ) (l : List α) :
    List.Perm (sortByDesc key l) l := by
  suffices h : ∀ (l acc : List α),
      List.Perm (l.foldl (fun acc x => insertByDesc key x acc) acc) (acc ++ l) by
    simpa using h l []
  intro l
  induction l with
  | nil =>
    intro acc
    simp
  | cons x xs ih =>
    intro acc
    have h1 : List.Perm ((x :: xs).foldl (fun acc x => insertByDesc key x acc) acc)
        (insertByDesc key x acc ++ xs) := ih (insertByDesc key x acc)
    have h2 : List.Perm (insertByDesc key x acc ++ xs) ((x :: acc) ++ xs) :=
      (insertByDesc_perm key x acc).append_right xs
    have h3 : List.Perm ((x :: acc) ++ xs) (acc ++ x :: xs) := List.perm_middle.symm
    exact (h1.trans h2).trans h3

/-- Membership in the sorted list is membership in the input. -/
theorem mem_sortByDesc {α : Type} (key : α → ℚ) (l : List α) (x : α) :
    x ∈ sortByDesc key l ↔ x ∈ l :=
  (sortByDesc_perm key l).mem_iff

/-- Key list of `bumpAssoc`: unchanged when the key is present, appended
otherwise. -/
theorem bumpAssoc_keys {β : Type} (k : String) (v0 : β) (upd : β → β)
    (l : List (String × β)) :
    (bumpAssoc k v0 upd l).map Prod.fst =
      if k ∈ l.map Prod.fst then l.map Prod.fst else l.map Prod.fst ++ [k] := by
  induction l with
  | nil => simp [bumpAssoc]
  | cons hd tl ih =>
    simp only [bumpAssoc, List.map_cons]
    by_cases h : hd.1 = k
    · simp [h]
    · have h2 : ¬ k = hd.1 := fun he => h he.symm
      simp only [if_neg h, List.map_cons, ih, List.mem_cons]
      by_cases hk : k ∈ tl.map Prod.fst
      · simp [hk, h2]
      · simp [hk, h2]

/-- `bumpAssoc` preserves distinctness of keys. -/
theorem bumpAssoc_keys_nodup {β : Type} (k : String) (v0 : β) (upd : β → β)
    (l : List (String × β)) (h : (l.map Prod.fst).Nodup) :
    ((bumpAssoc k v0 upd l).map Prod.fst).Nodup := by
  rw [bumpAssoc_keys]
  split
  · exact h
  · next hk => simpa [List.nodup_append, hk] using h

/-- Every key of a `bumpAssoc` step comes from the old map or is the new key. -/
theorem bumpAssoc_key_src {β : Type} (k : String) (v0 : β) (upd : β → β)
    (l : List (String × β)) (k2 : String)
    (hk2 : k2 ∈ (bumpAssoc k v0 upd l).map Prod.fst) :
    k2 ∈ l.map Prod.fst ∨ k2 = k := by
  rw [bumpAssoc_keys] at hk2
  by_cases hm : k ∈ l.map Prod.fst
  · rw [if_pos hm] at hk2
    exact Or.inl hk2
  · rw [if_neg hm] at hk2
    rcases List.mem_append.1 hk2 with h2 | h2
    · exact Or.inl h2
    · exact Or.inr (List.mem_singleton.1 h2)

/-- Keys of a `bumpAssoc` fold stay distinct. -/
theorem foldl_bumpAssoc_nodup {γ β : Type} (keyOf : γ → String) (i : γ → β)
    (u : γ → β → β) (charges : List γ) :
    ∀ (m0 : List (String × β)), (m0.map Prod.fst).Nodup →
      ((charges.foldl (fun m c => bumpAssoc (keyOf c) (i c) (u c) m) m0).map
        Prod.fst).Nodup := by
  induction charges with
  | nil =>
    intro m0 h
    exact h
  | cons c cs ih =>
    intro m0 h
    exact ih (bumpAssoc (keyOf c) (i c) (u c) m0) (bumpAssoc_keys_nodup _ _ _ _ h)

/-- Keys of a `bumpAssoc` fold come from the seed or from the per-element key
function. -/
theorem foldl_bumpAssoc_key_src {γ β : Type} (keyOf : γ → String) (i : γ → β)
    (u : γ → β → β) (charges : List γ) :
    ∀ (m0 : List (String × β)) (k : String),
      k ∈ (charges.foldl (fun m c => bumpAssoc (keyOf c) (i c) (u c) m) m0).map
        Prod.fst →
      k ∈ m0.map Prod.fst ∨ ∃ c ∈ charges, k = keyOf c := by
  induction charges with
  | nil =>
    intro m0 k hk
    exact Or.inl hk
  | cons c cs ih =>
    intro m0 k hk
    rcases ih (bumpAssoc (keyOf c) (i c) (u c) m0) k hk with h1 | h1
    · rcases bumpAssoc_key_src _ _ _ _ _ h1 with h2 | h2
      · exact Or.inl h2
      · exact Or.inr ⟨c, List.mem_cons_self c cs, h2⟩
    · rcases h1 with ⟨c2, hc2, hk2⟩
      exact Or.inr ⟨c2, List.mem_cons_of_mem c hc2, hk2⟩

/-- A `toNullableString` result is never the empty string. -/
theorem toNullableString_ne_empty (v : Option String) (s : String)
    (h : toNullableString v = some s) : s ≠ "" := by
  unfold toNullableString at h
  cases v with
  | none => exact absurd h (by simp)
  | some s0 =>
    simp only at h
    by_cases h0 : s0 = ""
    · rw [if_pos h0] at h
      exact absurd h (by simp)
    · rw [if_neg h0] at h
      by_cases h1 : (jsTrim s0).length > 0
      · rw [if_pos h1] at h
        have hs : s = jsTrim s0 := (Option.some.inj h).symm
        intro he
        rw [hs] at he
        rw [he] at h1
        simp at h1
      · rw [if_neg h1] at h
        exact absurd h (by simp)

/-- Non-negativity of the rounded minor amount and its rounded major image. -/
theorem roundMulDiv_nonneg (q D : ℚ) (hq : 0 ≤ q) (hD : 0 < D) :
    (0 : ℚ) ≤ ((round (q * D) : ℤ) : ℚ) ∧
      0 ≤ jsToFixed2 (((round (q * D) : ℤ) : ℚ) / D) := by
  have hr : (0 : ℤ) ≤ round (q * D) := by
    rw [round_eq]
    exact Int.floor_nonneg.2 (by nlinarith)
  have h1 : (0 : ℚ) ≤ ((round (q * D) : ℤ) : ℚ) := by exact_mod_cast hr
  refine ⟨h1, ?_⟩
  unfold jsToFixed2
  have h2 : (0 : ℚ) ≤ ((round (q * D) : ℤ) : ℚ) / D := div_nonneg h1 (le_of_lt hD)
  have h3 : (0 : ℤ) ≤ round (((round (q * D) : ℤ) : ℚ) / D * 100) := by
    rw [round_eq]
    exact Int.floor_nonneg.2 (by nlinarith)
  have h4 : (0 : ℚ) ≤ ((round (((round (q * D) : ℤ) : ℚ) / D * 100) : ℤ) : ℚ) := by
    exact_mod_cast h3
  exact div_nonneg h4 (by norm_num)

/-- Both components of `normalizeAmount` are non-negative. -/
theorem normalizeAmount_nonneg (ta : Option PaypalAmount) :
    0 ≤ (normalizeAmount ta).1 ∧ 0 ≤ (normalizeAmount ta).2 := by
  unfold normalizeAmount
  dsimp only
  split
  · simp
  · next q heq =>
    split
    · simp
    · next hq =>
      push_neg at hq
      split
      · simpa using roundMulDiv_nonneg q 1 hq one_pos
      · simpa using roundMulDiv_nonneg q 100 hq (by norm_num)

/-! ### Claim theorems -/

/-- C8: `convertToMajorUnits` divides the minor-unit amount by 100 for any
currency (any casing) outside the fixed zero-decimal set and by 1 for
zero-decimal currencies; 1050 minor units are 10.50 USD and 1050 JPY. -/
theorem convertToMajorUnits_spec :
    (∀ (n : ℤ) (c : String), toLowerStr c ∈ ZERO_DECIMAL_CURRENCIES →
      convertToMajorUnits (n : ℚ) c = (n : ℚ)) ∧
    (∀ (n : ℤ) (c : String), toLowerStr c ∉ ZERO_DECIMAL_CURRENCIES →
      convertToMajorUnits (n : ℚ) c = (n : ℚ) / 100) ∧
    convertToMajorUnits 1050 "USD" = (1050 : ℚ) / 100 ∧
    convertToMajorUnits 1050 "JPY" = 1050 := by
  have h1 : ∀ (n : ℤ) (c : String), toLowerStr c ∈ ZERO_DECIMAL_CURRENCIES →
      convertToMajorUnits (n : ℚ) c = (n : ℚ) := by
    intro n c h
    simp [convertToMajorUnits, h, jsToFixed2_intCast]
  have h2 : ∀ (n : ℤ) (c : String), toLowerStr c ∉ ZERO_DECIMAL_CURRENCIES →
      convertToMajorUnits (n : ℚ) c = (n : ℚ) / 100 := by
    intro n c h
    simp [convertToMajorUnits, h, jsToFixed2_int_div_100]
  refine ⟨h1, h2, ?_, ?_⟩
  · have := h2 1050 "USD" (by decide)
    simpa using this
  · have := h1 1050 "JPY" (by decide)
    simpa using this

/-- C8 witness: the conversion evaluated at concrete inputs through the
theorem. -/
theorem convertToMajorUnits_spec_witness :
    convertToMajorUnits ((5 : ℤ) : ℚ) "jPy" = ((5 : ℤ) : ℚ) ∧
    convertToMajorUnits ((1050 : ℤ) : ℚ) "usd" = ((1050 : ℤ) : ℚ) / 100 :=
  ⟨convertToMajorUnits_spec.1 5 "jPy" (by decide),
   convertToMajorUnits_spec.2.1 1050 "usd" (by decide)⟩

/-- C5: the multi-page accumulation loop, with `pageSize = 2`, three available
rows and `limit = 10`, performs exactly two fetch calls (a full page of 2 rows
then a short page of 1 row) and returns exactly the 3 rows; an empty first
page stops after one call, a short first page stops after one call with that
page's rows, and in all cases the result is truncated to at most the target
limit. -/
theorem multi_page_accumulation_spec :
    bigqueryFetchAllPages (pagedFetch [10, 20, 30] 2) 2 10 1 = ([10, 20, 30], 2) ∧
    (∀ (α : Type) (fetch : Nat → List α) (perPage target page : Nat),
      (bigqueryFetchAllPages fetch perPage target page).1.length ≤ target) ∧
    (∀ (α : Type) (fetch : Nat → List α) (perPage target page : Nat),
      0 < target → fetch page = [] →
      bigqueryFetchAllPages fetch perPage target page = ([], 1)) ∧
    (∀ (α : Type) (fetch : Nat → List α) (perPage target page : Nat),
      0 < target → fetch page ≠ [] → (fetch page).length < perPage →
      bigqueryFetchAllPages fetch perPage target page = ((fetch page).take target, 1)) := by
  refine ⟨by decide, ?_, ?_, ?_⟩
  · intro α fetch perPage target page
    have h : (bigqueryFetchAllPages fetch perPage target page).1 =
        (fetchLoop fetch perPage target (target + 1) page [] 0).1.take target := rfl
    rw [h, List.length_take]
    exact min_le_left _ _
  · intro α fetch perPage target page h0 hb
    unfold bigqueryFetchAllPages
    simp [fetchLoop, h0, hb]
  · intro α fetch perPage target page h0 hne hlt
    unfold bigqueryFetchAllPages
    have hlen : (fetch page).length ≠ 0 := by
      simpa [List.length_eq_zero] using hne
    simp [fetchLoop, h0, hlen, hlt]

/-- C5 witness: the stopping conditions exercised at concrete inputs through
the theorem. -/
theorem multi_page_accumulation_spec_witness :
    bigqueryFetchAllPages (fun _ => ([] : List Nat)) 2 10 1 = ([], 1) ∧
    bigqueryFetchAllPages (fun _ => [7]) 2 10 1 = ([7], 1) :=
  ⟨multi_page_accumulation_spec.2.2.1 Nat (fun _ => []) 2 10 1 (by decide) rfl,
   multi_page_accumulation_spec.2.2.2 Nat (fun _ => [7]) 2 10 1 (by decide) (by decide)
     (by decide)⟩

/-- C1 counterexample: a card-ledger fetch failure does NOT propagate out of
`getStripeCharges` — the function's internal `try/catch` swallows it, the
result is the empty list, indistinguishable from a successful empty fetch,
even though the inner body does fail. -/
theorem stripe_fetch_failure_not_propagated :
    getStripeCharges "2024-01-01" "2024-01-31" (Except.error "UnreachableService") = [] ∧
    getStripeCharges "2024-01-01" "2024-01-31" (Except.error "UnreachableService") =
      getStripeCharges "2024-01-01" "2024-01-31" (Except.ok []) ∧
    (getStripeChargesInner "2024-01-01" "2024-01-31"
      (Except.error "UnreachableService")).isOk = false := by
  refine ⟨by decide, by decide, by decide⟩

/-- C1 (amended): BOTH ledger adapters catch fetch failures and degrade to an
empty result set — the PayPal charge tool by its `try/catch`, and
`getStripeCharges` by its own internal `try/catch`; neither propagates the
failure to its caller. -/
theorem ledger_fetch_failure_degrades_to_empty :
    (∀ (startDate endDate msg : String),
      getStripeCharges startDate endDate (Except.error msg) = []) ∧
    (∀ (startDate endDate now msg : String),
      paypalChargeToolExecute startDate endDate now (Except.error msg) = []) := by
  constructor
  · intro sd ed msg
    unfold getStripeCharges getStripeChargesInner
    rcases parseDateToUnix sd "startDate" with e1 | v1
    · rfl
    · rcases parseDateToUnix ed "endDate" with e2 | v2
      · rfl
      · by_cases hlt : v2 < v1
        · simp [hlt]
        · simp [hlt]
  · intro sd ed now msg
    unfold paypalChargeToolExecute
    rcases parseDateRange sd ed with e1 | v1 <;> rfl

/-- C9: on an empty charge set both top-customers rollups return
`totalCustomers = 0`, an empty `topCustomers` list and exactly one sentinel
no-activity insight; the collection-valued fields are empty, not null. -/
theorem topCustomers_empty_rollup :
    (∀ (startDate endDate : String) (limit : Nat),
      buildTopCustomersSummaryPaypal startDate endDate [] limit =
        { rangeStartDate := startDate
          rangeEndDate := endDate
          totalCustomers := 0
          topCustomers := []
          insights := ["No PayPal customer activity detected between " ++ startDate ++
            " and " ++ endDate ++ "."] }) ∧
    (∀ (startDate endDate : String) (limit : Nat),
      buildTopCustomersSummaryStripe startDate endDate [] limit =
        { rangeStartDate := startDate
          rangeEndDate := endDate
          totalCustomers := 0
          topCustomers := []
          insights := ["No customer activity detected between " ++ startDate ++
            " and " ++ endDate ++ "."] }) := by
  constructor
  · intro sd ed limit
    simp [buildTopCustomersSummaryPaypal, generateTopCustomerInsightsPaypal, sortByDesc]
  · intro sd ed limit
    simp [buildTopCustomersSummaryStripe, generateTopCustomerInsightsStripe, sortByDesc]

/-- C2: for every session row whose `session_start` aggregation carries a
campaign source or medium, the verdict has `sourceType = 'session_start'` and
each of source, medium and campaign present on the `session_start` event is
used verbatim, taking precedence over any landing-URL `utm_*` value;
`gclid`/`dclid` from the same event win the coalesce. `attributionOf` is a
function of the session row, so exactly one verdict is produced per session. -/
theorem attribution_session_start_precedence (j : SessionJoin)
    (h : j.utmSourceStart.isSome = true ∨ j.utmMediumStart.isSome = true) :
    (attributionOf j).sourceType = "session_start" ∧
    (∀ v, j.utmSourceStart = some v → (attributionOf j).source = v) ∧
    (∀ v, j.utmMediumStart = some v → (attributionOf j).medium = v) ∧
    (∀ v, j.utmCampaignStart = some v → (attributionOf j).campaign = v) ∧
    (∀ v, j.gclidStart = some v → (attributionOf j).gclid = some v) ∧
    (∀ v, j.dclidStart = some v → (attributionOf j).dclid = some v) := by
  refine ⟨?_, ?_, ?_, ?_, ?_, ?_⟩
  · unfold attributionOf
    rcases h with h | h <;> simp [h]
  · intro v hv
    simp [attributionOf, hv]
  · intro v hv
    simp [attributionOf, hv]
  · intro v hv
    simp [attributionOf, hv]
  · intro v hv
    simp [attributionOf, hv]
  · intro v hv
    simp [attributionOf, hv]

/-- C2 witness: a session row carrying `session_start` source/medium/campaign
values and conflicting landing-URL UTM values resolves via tier 1. -/
theorem attribution_session_start_precedence_witness :
    (attributionOf
      { utmSourceStart := some "newsletter", utmMediumStart := some "email",
        utmCampaignStart := some "spring", gclidStart := some "g1",
        dclidStart := some "d1", utmSourceLp := some "facebook",
        utmMediumLp := some "social", utmCampaignLp := some "promo",
        utmTermLp := none, utmContentLp := none, gclidLp := some "g2",
        dclidLp := some "d2", refSource := some "bing", refMedium := some "organic"
        }).sourceType = "session_start" ∧
    (attributionOf
      { utmSourceStart := some "newsletter", utmMediumStart := some "email",
        utmCampaignStart := some "spring", gclidStart := some "g1",
        dclidStart := some "d1", utmSourceLp := some "facebook",
        utmMediumLp := some "social", utmCampaignLp := some "promo",
        utmTermLp := none, utmContentLp := none, gclidLp := some "g2",
        dclidLp := some "d2", refSource := some "bing", refMedium := some "organic"
        }).source = "newsletter" ∧
    (attributionOf
      { utmSourceStart := some "newsletter", utmMediumStart := some "email",
        utmCampaignStart := some "spring", gclidStart := some "g1",
        dclidStart := some "d1", utmSourceLp := some "facebook",
        utmMediumLp := some "social", utmCampaignLp := some "promo",
        utmTermLp := none, utmContentLp := none, gclidLp := some "g2",
        dclidLp := some "d2", refSource := some "bing", refMedium := some "organic"
        }).medium = "email" := by
  have h := attribution_session_start_precedence
    { utmSourceStart := some "newsletter", utmMediumStart := some "email",
      utmCampaignStart := some "spring", gclidStart := some "g1",
      dclidStart := some "d1", utmSourceLp := some "facebook",
      utmMediumLp := some "social", utmCampaignLp := some "promo",
      utmTermLp := none, utmContentLp := none, gclidLp := some "g2",
      dclidLp := some "d2", refSource := some "bing", refMedium := some "organic" }
    (Or.inl rfl)
  exact ⟨h.1, h.2.1 "newsletter" rfl, h.2.2.1 "email" rfl⟩

/-- `insertByTs` permutes consing. -/
theorem insertByTs_perm (x : GAEvent) (l : List GAEvent) :
    List.Perm (insertByTs x l) (x :: l) := by
  induction l with
  | nil => exact List.Perm.refl _
  | cons y ys ih =>
    simp only [insertByTs]
    split
    · exact List.Perm.refl _
    · exact (ih.cons y).trans (List.Perm.swap x y ys)

/-- The timestamp sort is a permutation of its input. -/
theorem sortByTs_perm (l : List GAEvent) : List.Perm (sortByTs l) l := by
  suffices h : ∀ (l acc : List GAEvent),
      List.Perm (l.foldl (fun acc x => insertByTs x acc) acc) (acc ++ l) by
    simpa using h l []
  intro l
  induction l with
  | nil =>
    intro acc
    simp
  | cons x xs ih =>
    intro acc
    have h1 := ih (insertByTs x acc)
    have h2 : List.Perm (insertByTs x acc ++ xs) ((x :: acc) ++ xs) :=
      (insertByTs_perm x acc).append_right xs
    have h3 : List.Perm ((x :: acc) ++ xs) (acc ++ x :: xs) := List.perm_middle.symm
    exact (h1.trans h2).trans h3

/-- Membership in the timestamp-sorted list is membership in the input. -/
theorem mem_sortByTs (l : List GAEvent) (x : GAEvent) : x ∈ sortByTs l ↔ x ∈ l :=
  (sortByTs_perm l).mem_iff

/-- C3 counterexample: a session whose only external referrer is
`https://news.google.com/article` — the referrer host contains the engine name
"google" as a substring, yet the code classifies it as `medium = 'referral'`
with the full host as source (the engine regex is anchored at `://`, not a
substring match on the host), contradicting `medium = 'organic'`,
`source = 'google'`. -/
theorem referrer_engine_substring_counterexample :
    containsSubstring "news.google.com" "google" = true ∧
    extractHost "https://news.google.com/article" = some "news.google.com" ∧
    firstExtRef [gaNewsGoogleEvent] = some "https://news.google.com/article" ∧
    (attributionOf (sessionJoinOfEvents [gaNewsGoogleEvent])).medium = "referral" ∧
    (attributionOf (sessionJoinOfEvents [gaNewsGoogleEvent])).source = "news.google.com" := by
  refine ⟨by decide, by decide, by decide, by decide, by decide⟩

/-- C3 (amended): for a session with no `session_start` campaign parameters
and no landing-URL UTM parameters, attribution uses the first chronological
`page_view` whose referrer is non-empty and whose host is not the site's own
domain: no qualifying referrer (in particular when every referrer is the
site's own domain) falls through to direct; a referrer matching an engine
pattern — `://` followed by an optional `www.` and the engine domain, not a
substring match on the host — yields `medium = 'organic'` with the engine
name as source (shown for google, and the organic medium for every engine);
any other qualifying referrer with an extractable host yields
`medium = 'referral'` with the lowercased host as source. -/
theorem referrer_classification_tier3 (evs : List GAEvent)
    (h1 : (sessionJoinOfEvents evs).utmSourceStart = none)
    (h2 : (sessionJoinOfEvents evs).utmMediumStart = none)
    (h3 : (sessionJoinOfEvents evs).utmSourceLp = none)
    (h4 : (sessionJoinOfEvents evs).utmMediumLp = none) :
    (firstExtRef evs = none →
      (attributionOf (sessionJoinOfEvents evs)).sourceType = "direct" ∧
      (attributionOf (sessionJoinOfEvents evs)).source = "(direct)" ∧
      (attributionOf (sessionJoinOfEvents evs)).medium = "(none)") ∧
    (∀ r, firstExtRef evs = some r → matchesEngine r "google" = true →
      (attributionOf (sessionJoinOfEvents evs)).medium = "organic" ∧
      (attributionOf (sessionJoinOfEvents evs)).source = "google") ∧
    (∀ r, firstExtRef evs = some r →
      (matchesEngine r "google" = true ∨ matchesEngine r "bing" = true ∨
        matchesEngine r "search.yahoo" = true ∨ matchesEngine r "duckduckgo" = true ∨
        matchesEngine r "baidu" = true ∨ matchesEngine r "yandex" = true) →
      (attributionOf (sessionJoinOfEvents evs)).medium = "organic") ∧
    (∀ r hostv, firstExtRef evs = some r →
      matchesEngine r "google" = false → matchesEngine r "bing" = false →
      matchesEngine r "search.yahoo" = false → matchesEngine r "duckduckgo" = false →
      matchesEngine r "baidu" = false → matchesEngine r "yandex" = false →
      extractHost r = some hostv →
      (attributionOf (sessionJoinOfEvents evs)).medium = "referral" ∧
      (attributionOf (sessionJoinOfEvents evs)).source = toLowerStr hostv) ∧
    ((∀ e ∈ evs, e.eventName = "page_view" →
        ∀ r, e.pageReferrer = some r → qualifiesAsExternalReferrer r = false) →
      firstExtRef evs = none) := by
  simp only [sessionJoinOfEvents] at h1 h2 h3 h4
  have hsrc : (attributionOf (sessionJoinOfEvents evs)).source =
      ((refDerived (firstExtRef evs)).refSource).getD "(direct)" := by
    simp [attributionOf, sessionJoinOfEvents, h1, h3]
  have hmed : (attributionOf (sessionJoinOfEvents evs)).medium =
      ((refDerived (firstExtRef evs)).refMedium).getD "(none)" := by
    simp [attributionOf, sessionJoinOfEvents, h2, h4]
  have hst : (attributionOf (sessionJoinOfEvents evs)).sourceType =
      (if ((refDerived (firstExtRef evs)).refSource).isSome then "referrer"
       else "direct") := by
    simp [attributionOf, sessionJoinOfEvents, h1, h2, h3, h4]
  refine ⟨?_, ?_, ?_, ?_, ?_⟩
  · intro hfr
    rw [hsrc, hmed, hst, hfr]
    simp [refDerived]
  · intro r hfr hg
    rw [hmed, hsrc, hfr]
    simp [refDerived, hg]
  · intro r hfr hor
    rw [hmed, hfr]
    rcases hor with hg | hg | hg | hg | hg | hg <;> simp [refDerived, hg]
  · intro r hostv hfr hg1 hg2 hg3 hg4 hg5 hg6 hh
    rw [hmed, hsrc, hfr]
    simp [refDerived, hg1, hg2, hg3, hg4, hg5, hg6, hh]
  · intro hall
    unfold firstExtRef
    have hnil : ((sortByTs evs).filterMap fun e =>
        if e.eventName = "page_view" then
          match e.pageReferrer with
          | some r => if qualifiesAsExternalReferrer r then some r else none
          | none => none
        else none) = [] := by
      rw [List.filterMap_eq_nil_iff]
      intro e he
      have hev : e ∈ evs := (mem_sortByTs evs e).1 he
      by_cases hpv : e.eventName = "page_view"
      · rw [if_pos hpv]
        cases hr : e.pageReferrer with
        | none => rfl
        | some r =>
          have := hall e hev hpv r hr
          simp [this]
      · rw [if_neg hpv]
    rw [hnil]
    rfl

/-- C3 witness: a clean `www.google.com` referrer with no UTM or
`session_start` signals resolves to organic/google through the theorem. -/
theorem referrer_classification_tier3_witness :
    (attributionOf (sessionJoinOfEvents [gaGoogleEvent])).medium = "organic" ∧
    (attributionOf (sessionJoinOfEvents [gaGoogleEvent])).source = "google" :=
  (referrer_classification_tier3 [gaGoogleEvent] (by decide) (by decide) (by decide)
    (by decide)).2.1 "https://www.google.com/" (by decide) (by decide)

/-- C10: every record produced by the wallet-ledger adapter has a non-empty
transaction id and order id (transactions lacking either, or outside the
express-checkout vocabulary, are dropped) and non-negative minor/major
amounts, which come from `normalizeAmount`; a missing/non-numeric (NaN) or
negative transaction amount is normalized to `(0, 0)`. -/
theorem fetchPaypalCardInfo_invariants :
    (∀ (now : String) (detail : PaypalTransactionDetail) (r : CardInfoRecord),
      mapPaypalTransactionToCardInfo now detail = some r →
      r.transactionId ≠ "" ∧ r.orderId ≠ "" ∧ 0 ≤ r.amountMinor ∧ 0 ≤ r.amountMajor ∧
        isExpressCheckoutPayment detail = true ∧
        (r.amountMinor, r.amountMajor) =
          normalizeAmount ((detail.transactionInfo).bind (·.transactionAmount))) ∧
    (∀ (now : String) (detail : PaypalTransactionDetail),
      isExpressCheckoutPayment detail = false →
      mapPaypalTransactionToCardInfo now detail = none) ∧
    (∀ (now : String) (detail : PaypalTransactionDetail),
      toNullableString ((detail.transactionInfo).bind (·.transactionId)) = none →
      mapPaypalTransactionToCardInfo now detail = none) ∧
    (∀ (now : String) (detail : PaypalTransactionDetail),
      toNullableString ((detail.transactionInfo).bind (·.invoiceId)) = none →
      toNullableString ((detail.transactionInfo).bind (·.customField)) = none →
      mapPaypalTransactionToCardInfo now detail = none) ∧
    (∀ ta : Option PaypalAmount,
      (ta.bind (·.value)).bind parseFloatPrefix = none → normalizeAmount ta = (0, 0)) ∧
    (∀ (ta : Option PaypalAmount) (q : ℚ),
      (ta.bind (·.value)).bind parseFloatPrefix = some q → q < 0 →
      normalizeAmount ta = (0, 0)) ∧
    (∀ (now : String) (transactions : List PaypalTransactionDetail)
        (r : CardInfoRecord), r ∈ fetchPaypalCardInfo now transactions →
      r.transactionId ≠ "" ∧ r.orderId ≠ "" ∧ 0 ≤ r.amountMinor ∧ 0 ≤ r.amountMajor) := by
  have hmain : ∀ (now : String) (detail : PaypalTransactionDetail) (r : CardInfoRecord),
      mapPaypalTransactionToCardInfo now detail = some r →
      r.transactionId ≠ "" ∧ r.orderId ≠ "" ∧ 0 ≤ r.amountMinor ∧ 0 ≤ r.amountMajor ∧
        isExpressCheckoutPayment detail = true ∧
        (r.amountMinor, r.amountMajor) =
          normalizeAmount ((detail.transactionInfo).bind (·.transactionAmount)) := by
    intro now detail r h
    unfold mapPaypalTransactionToCardInfo at h
    split at h
    · exact absurd h (by simp)
    · next hx =>
      dsimp only at h
      split at h
      · exact absurd h (by simp)
      · next tid htid =>
        split at h
        · exact absurd h (by simp)
        · next oid hoid =>
          have hr := (Option.some.inj h).symm
          have hnn := normalizeAmount_nonneg
            ((detail.transactionInfo).bind (·.transactionAmount))
          have hoidne : oid ≠ "" := by
            cases hinv : toNullableString ((detail.transactionInfo).bind (·.invoiceId)) with
            | some s =>
              rw [hinv] at hoid
              simp only [Option.some_orElse] at hoid
              exact (Option.some.inj hoid) ▸ toNullableString_ne_empty _ _ hinv
            | none =>
              rw [hinv] at hoid
              simp only [Option.none_orElse] at hoid
              exact toNullableString_ne_empty _ _ hoid
          subst hr
          exact ⟨toNullableString_ne_empty _ _ htid, hoidne, hnn.1, hnn.2,
            not_not.mp hx, rfl⟩
  refine ⟨hmain, ?_, ?_, ?_, ?_, ?_, ?_⟩
  · intro now detail h
    simp [mapPaypalTransactionToCardInfo, h]
  · intro now detail h
    simp [mapPaypalTransactionToCardInfo, h]
  · intro now detail h5 h6
    cases htid : toNullableString ((detail.transactionInfo).bind (·.transactionId)) <;>
      simp [mapPaypalTransactionToCardInfo, htid, h5, h6]
  · intro ta h
    simp [normalizeAmount, h]
  · intro ta q h hneg
    simp [normalizeAmount, h, hneg]
  · intro now txs r hr
    simp only [fetchPaypalCardInfo, List.mem_filterMap, List.mem_map, id] at hr
    rcases hr with ⟨o, ⟨t, ht, hto⟩, ho⟩
    subst ho
    have := hmain now t r hto
    exact ⟨this.1, this.2.1, this.2.2.1, this.2.2.2.1⟩

/-- C10 witness: a concrete express-checkout transaction maps to a concrete
record satisfying the invariants through the theorem. -/
theorem fetchPaypalCardInfo_invariants_witness :
    paypalSampleRecord.transactionId ≠ "" ∧ paypalSampleRecord.orderId ≠ "" ∧
    0 ≤ paypalSampleRecord.amountMinor ∧ 0 ≤ paypalSampleRecord.amountMajor ∧
    isExpressCheckoutPayment paypalSampleDetail = true ∧
    (paypalSampleRecord.amountMinor, paypalSampleRecord.amountMajor) =
      normalizeAmount ((paypalSampleDetail.transactionInfo).bind (·.transactionAmount)) :=
  fetchPaypalCardInfo_invariants.1 "2024-04-01T00:00:00Z" paypalSampleDetail
    paypalSampleRecord (by rfl)

/-- C4 counterexample: the Stripe `aggregateByCurrency` does merge charges
whose currency codes differ only in case, but the breakdown key is the
LOWER-cased code ("usd"), not the upper-cased code the claim states. -/
theorem stripe_currency_key_not_upper_counterexample :
    (aggregateByCurrencyStripe
      [sampleStripeCharge "USD", sampleStripeCharge "usd"]).map
        (fun b => b.currency) = ["usd"] ∧
    (["usd"] : List String) ≠ ["USD"] := by
  exact ⟨rfl, by decide⟩

/-- C4 (amended): both `aggregateByCurrency` instantiations merge charges
whose currency codes differ only in case into one group (the key list has no
duplicates and every key is the case-normalisation of a member's code), but
the normalisation differs: PayPal upper-cases `currency ?? 'USD'` while
Stripe lower-cases the code. -/
theorem aggregateByCurrency_case_normalization :
    (aggregateByCurrencyStripe [sampleStripeCharge "USD", sampleStripeCharge "usd"]).map
      (fun b => b.currency) = ["usd"] ∧
    (aggregateByCurrencyPaypal [samplePaypalCharge "Usd", samplePaypalCharge "usD"]).map
      (fun b => b.currency) = ["USD"] ∧
    (∀ charges : List ChargeSummary,
      ((aggregateByCurrencyStripe charges).map (fun b => b.currency)).Nodup) ∧
    (∀ (charges : List ChargeSummary) (b : StripeCurrencyBreakdown),
      b ∈ aggregateByCurrencyStripe charges →
      ∃ c ∈ charges, b.currency = toLowerStr c.currency) ∧
    (∀ charges : List CardInfoRecord,
      ((aggregateByCurrencyPaypal charges).map (fun b => b.currency)).Nodup) ∧
    (∀ (charges : List CardInfoRecord) (b : PaypalCurrencyBreakdown),
      b ∈ aggregateByCurrencyPaypal charges →
      ∃ c ∈ charges, b.currency = toUpperStr ((c.currency).getD "USD")) := by
  refine ⟨rfl, rfl, ?_, ?_, ?_, ?_⟩
  · intro charges
    unfold aggregateByCurrencyStripe
    refine (((sortByDesc_perm _ _).map _).nodup_iff).mpr ?_
    rw [List.map_map]
    have hcomp : ((fun b : StripeCurrencyBreakdown => b.currency) ∘ fun
        kv : String × StripeCurrencyEntry =>
        ({ currency := kv.1, chargeCount := kv.2.chargeCount,
           refundedCount := kv.2.refundedCount,
           grossAmountMinor := kv.2.grossAmountMinor,
           grossAmountMajor := convertToMajorUnits kv.2.grossAmountMinor kv.1,
           averageTicketMajor :=
             if kv.2.chargeCount > 0 then
               some (jsToFixed2 (convertToMajorUnits kv.2.grossAmountMinor kv.1 /
                 (kv.2.chargeCount : ℚ)))
             else none } : StripeCurrencyBreakdown)) = Prod.fst :=
      funext fun kv => rfl
    rw [hcomp]
    exact foldl_bumpAssoc_nodup _ _ _ charges [] (by simp)
  · intro charges b hb
    unfold aggregateByCurrencyStripe at hb
    rw [mem_sortByDesc] at hb
    rcases List.mem_map.1 hb with ⟨kv, hkv, hbkv⟩
    have hcur : b.currency = kv.1 := by rw [← hbkv]
    have hk : kv.1 ∈ (charges.foldl (fun m charge =>
        bumpAssoc (toLowerStr charge.currency)
          ⟨1, if charge.refunded then 1 else 0, charge.amount⟩
          (fun e => ⟨e.chargeCount + 1,
            e.refundedCount + (if charge.refunded then 1 else 0),
            e.grossAmountMinor + charge.amount⟩) m)
        ([] : List (String × StripeCurrencyEntry))).map Prod.fst :=
      List.mem_map.2 ⟨kv, hkv, rfl⟩
    rcases foldl_bumpAssoc_key_src _ _ _ charges [] kv.1 hk with h1 | h1
    · simp at h1
    · rcases h1 with ⟨c, hc, hkc⟩
      exact ⟨c, hc, hcur.trans hkc⟩
  · intro charges
    unfold aggregateByCurrencyPaypal
    refine (((sortByDesc_perm _ _).map _).nodup_iff).mpr ?_
    rw [List.map_map]
    have hcomp : ((fun b : PaypalCurrencyBreakdown => b.currency) ∘ fun
        kv : String × PaypalCurrencyEntry =>
        ({ currency := kv.1, transactionCount := kv.2.transactionCount,
           refundedCount := kv.2.refundedCount,
           grossAmountMinor := kv.2.grossAmountMinor,
           grossAmountMajor := jsToFixed2 kv.2.grossAmountMajor,
           averageTicketMajor :=
             if kv.2.transactionCount > 0 then
               some (jsToFixed2 (kv.2.grossAmountMajor / (kv.2.transactionCount : ℚ)))
             else none } : PaypalCurrencyBreakdown)) = Prod.fst :=
      funext fun kv => rfl
    rw [hcomp]
    exact foldl_bumpAssoc_nodup _ _ _ charges [] (by simp)
  · intro charges b hb
    unfold aggregateByCurrencyPaypal at hb
    rw [mem_sortByDesc] at hb
    rcases List.mem_map.1 hb with ⟨kv, hkv, hbkv⟩
    have hcur : b.currency = kv.1 := by rw [← hbkv]
    have hk : kv.1 ∈ (charges.foldl (fun m charge =>
        bumpAssoc (toUpperStr ((charge.currency).getD "USD"))
          ⟨1, if isRefunded charge.status then 1 else 0, charge.amountMinor,
            charge.amountMajor⟩
          (fun e => ⟨e.transactionCount + 1,
            e.refundedCount + (if isRefunded charge.status then 1 else 0),
            e.grossAmountMinor + charge.amountMinor,
            e.grossAmountMajor + charge.amountMajor⟩) m)
        ([] : List (String × PaypalCurrencyEntry))).map Prod.fst :=
      List.mem_map.2 ⟨kv, hkv, rfl⟩
    rcases foldl_bumpAssoc_key_src _ _ _ charges [] kv.1 hk with h1 | h1
    · simp at h1
    · rcases h1 with ⟨c, hc, hkc⟩
      exact ⟨c, hc, hcur.trans hkc⟩

/-- C4 witness: the key-provenance conjunct instantiated on a concrete
one-charge input. -/
theorem aggregateByCurrency_case_normalization_witness :
    ∃ c ∈ [sampleStripeCharge "USD"],
      sampleStripeBreakdownUsd.currency = toLowerStr c.currency :=
  aggregateByCurrency_case_normalization.2.2.2.1 [sampleStripeCharge "USD"]
    sampleStripeBreakdownUsd
    (by
      rw [show aggregateByCurrencyStripe [sampleStripeCharge "USD"] =
        [sampleStripeBreakdownUsd] from rfl]
      exact List.mem_singleton.mpr rfl)

/-- C6: with today = 2024-06-10 the resolver defaults to
{2024-06-04, 2024-06-10} given no dates and to {2024-06-01, 2024-06-07} given
only startDate = 2024-06-01; in general no dates give end = today and
start = today − 6, and a lone non-future startDate gives end = start + 6
clamped to today. -/
theorem computeDateRange_defaults :
    computeDateRange none none (toDayNumber 2024 6 10) =
      .ok ⟨"2024-06-04", "2024-06-10"⟩ ∧
    computeDateRange (some "2024-06-01") none (toDayNumber 2024 6 10) =
      .ok ⟨"2024-06-01", "2024-06-07"⟩ ∧
    (∀ today : Int, computeDateRange none none today =
      .ok ⟨formatISODate (today - 6), formatISODate today⟩) ∧
    (∀ (sv : String) (s today : Int), parseISODate sv "startDate" = .ok s →
      s ≤ today →
      computeDateRange (some sv) none today =
        .ok ⟨formatISODate s, formatISODate (min (s + 6) today)⟩) := by
  have hgen : ∀ (sv : String) (s today : Int), parseISODate sv "startDate" = .ok s →
      s ≤ today →
      computeDateRange (some sv) none today =
        .ok ⟨formatISODate s, formatISODate (min (s + 6) today)⟩ := by
    intro sv s t hp hle
    simp only [computeDateRange, computeDateRangeCore]
    rw [hp]
    dsimp only
    have h1 : ensureNotFuture s t "startDate" = .ok () := by
      unfold ensureNotFuture
      rw [if_neg (not_lt.mpr hle)]
    rw [h1]
    dsimp only
    by_cases hgt : addDays s 6 > t
    · have h2 : ensureChronology s t = .ok () := by
        unfold ensureChronology
        rw [if_neg (not_lt.mpr hle)]
      have hmin : min (s + 6) t = t := min_eq_right (le_of_lt hgt)
      simp only [hgt, if_true, h2, hmin, Except.map]
    · have hs6 : ¬ addDays s 6 < s := by
        unfold addDays
        omega
      have h2 : ensureChronology s (addDays s 6) = .ok () := by
        unfold ensureChronology
        rw [if_neg hs6]
      have hmin : min (s + 6) t = s + 6 := min_eq_left (not_lt.mp hgt)
      simp only [hgt, if_false, h2, hmin, Except.map]
      rfl
  refine ⟨?_, ?_, ?_, hgen⟩
  · rfl
  · exact (hgen "2024-06-01" (toDayNumber 2024 6 1) (toDayNumber 2024 6 10)
      (by rfl) (by decide)).trans (by rfl)
  · intro t
    rfl

/-- C6 witness: the clamped branch exercised through the theorem at a
concrete start date two days before today. -/
theorem computeDateRange_defaults_witness :
    computeDateRange (some "2024-06-08") none (toDayNumber 2024 6 10) =
      .ok ⟨formatISODate (toDayNumber 2024 6 8),
        formatISODate (min (toDayNumber 2024 6 8 + 6) (toDayNumber 2024 6 10))⟩ :=
  computeDateRange_defaults.2.2.2 "2024-06-08" (toDayNumber 2024 6 8)
    (toDayNumber 2024 6 10) (by rfl) (by decide)

/-- C7: the resolver fails exactly when a supplied date fails to parse as a
valid `YYYY-MM-DD` date, both dates are supplied with `end < start`, or a
supplied date is after today; otherwise it returns an inclusive pair
(`start ≤ end`), and a lone non-future endDate yields `start = end − 6`
without clamping and without any future-validation of the derived start. -/
theorem computeDateRange_failure_conditions :
    (∀ (startDate endDate : Option String) (today : Int),
      (computeDateRange startDate endDate today).isOk = false ↔
        invalidRangeCond startDate endDate today) ∧
    (∀ (ev : String) (e today : Int), parseISODate ev "endDate" = .ok e →
      e ≤ today →
      computeDateRange none (some ev) today =
        .ok ⟨formatISODate (e - 6), formatISODate e⟩) ∧
    (∀ (startDate endDate : Option String) (today : Int) (p : Int × Int),
      computeDateRangeCore startDate endDate today = .ok p → p.1 ≤ p.2) := by
  refine ⟨?_, ?_, ?_⟩
  · intro sd ed t
    rw [show (computeDateRange sd ed t).isOk =
      (computeDateRangeCore sd ed t).isOk from exceptMap_isOk _ _]
    cases sd with
    | none =>
      cases ed with
      | none =>
        simp [computeDateRangeCore, invalidRangeCond, Except.isOk, Except.toBool]
      | some ev =>
        rcases hpe : parseISODate ev "endDate" with er | e
        · simp [computeDateRangeCore, invalidRangeCond, hpe, Except.isOk, Except.toBool]
        · by_cases hfe : e > t
          · simp [computeDateRangeCore, invalidRangeCond, hpe, hfe, ensureNotFuture,
              Except.isOk, Except.toBool]
          · simp [computeDateRangeCore, invalidRangeCond, hpe, hfe, ensureNotFuture,
              Except.isOk, Except.toBool]
    | some sv =>
      cases ed with
      | none =>
        rcases hps : parseISODate sv "startDate" with er | s
        · simp [computeDateRangeCore, invalidRangeCond, hps, Except.isOk, Except.toBool]
        · by_cases hfs : s > t
          · simp [computeDateRangeCore, invalidRangeCond, hps, hfs, ensureNotFuture,
              Except.isOk, Except.toBool]
          · have hc : ¬ ((if addDays s 6 > t then t else addDays s 6) < s) := by
              unfold addDays
              split <;> omega
            simp [computeDateRangeCore, invalidRangeCond, hps, hfs, ensureNotFuture,
              ensureChronology, hc, Except.isOk, Except.toBool]
      | some ev =>
        rcases hps : parseISODate sv "startDate" with er | s
        · simp [computeDateRangeCore, invalidRangeCond, hps, Except.isOk, Except.toBool]
        · rcases hpe : parseISODate ev "endDate" with er | e
          · simp [computeDateRangeCore, invalidRangeCond, hps, hpe, Except.isOk, Except.toBool]
          · by_cases hc : e < s
            · simp [computeDateRangeCore, invalidRangeCond, hps, hpe, hc,
                ensureChronology, Except.isOk, Except.toBool]
            · by_cases hfs : s > t
              · simp [computeDateRangeCore, invalidRangeCond, hps, hpe, hc, hfs,
                  ensureChronology, ensureNotFuture, Except.isOk, Except.toBool]
              · by_cases hfe : e > t
                · simp [computeDateRangeCore, invalidRangeCond, hps, hpe, hc, hfs,
                    hfe, ensureChronology, ensureNotFuture, Except.isOk, Except.toBool]
                · simp [computeDateRangeCore, invalidRangeCond, hps, hpe, hc, hfs,
                    hfe, ensureChronology, ensureNotFuture, Except.isOk, Except.toBool]
  · intro ev e t hp hle
    simp only [computeDateRange, computeDateRangeCore]
    rw [hp]
    dsimp only
    have h1 : ensureNotFuture e t "endDate" = .ok () := by
      unfold ensureNotFuture
      rw [if_neg (not_lt.mpr hle)]
    rw [h1]
    rfl
  · intro sd ed t p h
    cases sd with
    | none =>
      cases ed with
      | none =>
        simp only [computeDateRangeCore] at h
        rw [Except.ok.injEq] at h
        subst h
        unfold addDays
        omega
      | some ev =>
        simp only [computeDateRangeCore] at h
        rcases hpe : parseISODate ev "endDate" with er | e <;> rw [hpe] at h
        · simp at h
        · dsimp only at h
          unfold ensureNotFuture at h
          by_cases hfe : e > t
          · rw [if_pos hfe] at h
            simp at h
          · rw [if_neg hfe] at h
            dsimp only at h
            rw [Except.ok.injEq] at h
            subst h
            unfold addDays
            omega
    | some sv =>
      cases ed with
      | none =>
        simp only [computeDateRangeCore] at h
        rcases hps : parseISODate sv "startDate" with er | s <;> rw [hps] at h
        · simp at h
        · dsimp only at h
          unfold ensureNotFuture at h
          by_cases hfs : s > t
          · rw [if_pos hfs] at h
            simp at h
          · rw [if_neg hfs] at h
            dsimp only at h
            unfold ensureChronology at h
            by_cases hc : (if addDays s 6 > t then t else addDays s 6) < s
            · rw [if_pos hc] at h
              simp at h
            · rw [if_neg hc] at h
              dsimp only at h
              rw [Except.ok.injEq] at h
              subst h
              exact not_lt.mp hc
      | some ev =>
        simp only [computeDateRangeCore] at h
        rcases hps : parseISODate sv "startDate" with er | s <;> rw [hps] at h
        · simp at h
        · dsimp only at h
          rcases hpe : parseISODate ev "endDate" with er | e <;> rw [hpe] at h
          · simp at h
          · dsimp only at h
            unfold ensureChronology at h
            by_cases hc : e < s
            · rw [if_pos hc] at h
              simp at h
            · rw [if_neg hc] at h
              dsimp only at h
              unfold ensureNotFuture at h
              by_cases hfs : s > t
              · rw [if_pos hfs] at h
                simp at h
              · rw [if_neg hfs] at h
                dsimp only at h
                by_cases hfe : e > t
                · rw [if_pos hfe] at h
                  simp at h
                · rw [if_neg hfe] at h
                  dsimp only at h
                  rw [Except.ok.injEq] at h
                  subst h
                  exact not_lt.mp hc

/-- C7 witness: a malformed start date rejected, a lone valid end date
resolved to `end − 6`, and the inclusive-order fact, all through the
theorem. -/
theorem computeDateRange_failure_conditions_witness :
    (computeDateRange (some "2024-13-01") none (toDayNumber 2024 6 10)).isOk = false ∧
    computeDateRange none (some "2024-06-10") (toDayNumber 2024 6 10) =
      .ok ⟨formatISODate (toDayNumber 2024 6 10 - 6),
        formatISODate (toDayNumber 2024 6 10)⟩ ∧
    ((-6 : Int), (0 : Int)).1 ≤ ((-6 : Int), (0 : Int)).2 :=
  ⟨(computeDateRange_failure_conditions.1 (some "2024-13-01") none
      (toDayNumber 2024 6 10)).mpr (Or.inl ⟨"2024-13-01", rfl, by rfl⟩),
   computeDateRange_failure_conditions.2.1 "2024-06-10" (toDayNumber 2024 6 10)
     (toDayNumber 2024 6 10) (by rfl) (by decide),
   computeDateRange_failure_conditions.2.2 none none 0 ((-6 : Int), (0 : Int)) (by rfl)⟩
